import Mathlib

/-!
# Filer settings store (`src/settings.cpp`)

A shallow embedding of the settings store of the Filer file manager:
the enum codecs, the profile directory resolver, `load`/`save` and
`loadFile`/`saveFile` against an INI-like grouped key/value file, and the
`setTerminal` setter with its side effect on the shared libfm configuration.

Conventions of the embedding:
* `QString` is `String`; a `const char*` token is the string it spells; a C
  string copied out of a `QString` is the text of its local 8-bit form up to
  the first NUL (`g_strdup`).
* C++ `int` is `Int`, brought back into the 32-bit range by `wrapInt32`
  where a conversion can leave it.
* typed C++ enums are inductive types with the declared enumerators; the
  `default:` label of a `switch` over such an enum shares the arm it is
  attached to.
* stateful code passes its state explicitly.
-/

namespace Filer

/-! ## Enumerations -/

/-- Modelled from the spec: the bookmark-open-target enum `OpenDirTargetType`
(declared in a header that is not among the sources), with the four variants
the codec handles. -/
inductive OpenDirTargetType
  | OpenInCurrentTab
  | OpenInNewTab
  | OpenInNewWindow
  | OpenInLastActiveWindow
  deriving DecidableEq, Repr

/-- Modelled from the spec: the view-mode enum `Fm::FolderView::ViewMode`
(declared in a header that is not among the sources). -/
inductive ViewMode
  | IconMode
  | CompactMode
  | DetailedListMode
  | ThumbnailMode
  deriving DecidableEq, Repr

/-- Modelled from the spec: the side-pane-mode enum `Fm::SidePane::Mode`
(declared in a header that is not among the sources). -/
inductive SidePaneMode
  | ModePlaces
  | ModeDirTree
  | ModeNone
  deriving DecidableEq, Repr

/-- Modelled from the spec: the two variants of `Qt::SortOrder`. -/
inductive SortOrder
  | AscendingOrder
  | DescendingOrder
  deriving DecidableEq, Repr

/-- Modelled from the spec: the sort-column enum `Fm::FolderModel::ColumnId`
(declared in a header that is not among the sources). -/
inductive ColumnId
  | ColumnFileName
  | ColumnFileType
  | ColumnFileSize
  | ColumnFileMTime
  | ColumnFileOwner
  deriving DecidableEq, Repr

/-- Modelled from the spec: the wallpaper modes `DesktopWindow::WallpaperMode`
(declared in `desktopwindow.h`, not among the sources). The settings record
keeps the mode as a plain `int`; `WallpaperMode.toInt` gives the enumerator
values. -/
inductive WallpaperMode
  | WallpaperNone
  | WallpaperTransparent
  | WallpaperStretch
  | WallpaperFit
  | WallpaperCenter
  | WallpaperTile
  deriving DecidableEq, Repr

/-- Modelled from the spec: the integer value of each wallpaper mode, in the
order of declaration; `WallpaperNone` is `0`, the value the constructor stores. -/
def WallpaperMode.toInt : WallpaperMode → Int
  | .WallpaperNone => 0
  | .WallpaperTransparent => 1
  | .WallpaperStretch => 2
  | .WallpaperFit => 3
  | .WallpaperCenter => 4
  | .WallpaperTile => 5

/-- The six declared wallpaper modes as the integers the record can hold. -/
def declaredWallpaperModes : List Int :=
  [WallpaperMode.WallpaperNone.toInt, WallpaperMode.WallpaperTransparent.toInt,
   WallpaperMode.WallpaperStretch.toInt, WallpaperMode.WallpaperFit.toInt,
   WallpaperMode.WallpaperCenter.toInt, WallpaperMode.WallpaperTile.toInt]

/-! ## Enum codecs (`settings.cpp`, lines 333-511) -/

open OpenDirTargetType ViewMode SidePaneMode SortOrder ColumnId

def bookmarkOpenMethodToString (value : OpenDirTargetType) : String :=
  match value with
  | OpenInCurrentTab => "current_tab"
  | OpenInNewTab => "new_tab"
  | OpenInNewWindow => "new_window"
  | OpenInLastActiveWindow => "last_window"

def bookmarkOpenMethodFromString (str : String) : OpenDirTargetType :=
  if str = "new_tab" then OpenInNewTab
  else if str = "new_window" then OpenInNewWindow
  else if str = "last_window" then OpenInLastActiveWindow
  else OpenInCurrentTab

def viewModeToString (value : ViewMode) : String :=
  match value with
  | IconMode => "icon"
  | CompactMode => "compact"
  | DetailedListMode => "detailed"
  | ThumbnailMode => "thumbnail"

def viewModeFromString (str : String) : ViewMode :=
  if str = "icon" then IconMode
  else if str = "compact" then CompactMode
  else if str = "detailed" then DetailedListMode
  else if str = "thumbnail" then ThumbnailMode
  else IconMode

def sortOrderToString (order : SortOrder) : String :=
  if order = DescendingOrder then "descending" else "ascending"

def sortOrderFromString (str : String) : SortOrder :=
  if str = "descending" then DescendingOrder else AscendingOrder

def sortColumnToString (value : ColumnId) : String :=
  match value with
  | ColumnFileName => "name"
  | ColumnFileType => "type"
  | ColumnFileSize => "size"
  | ColumnFileMTime => "mtime"
  | ColumnFileOwner => "owner"

def sortColumnFromString (str : String) : ColumnId :=
  if str = "name" then ColumnFileName
  else if str = "type" then ColumnFileType
  else if str = "size" then ColumnFileSize
  else if str = "mtime" then ColumnFileMTime
  else if str = "owner" then ColumnFileOwner
  else ColumnFileName

/-- The `switch` over the integer wallpaper mode: the `default:` label sits on
the `WallpaperNone` arm, so every integer that is not one of the other five
enumerators prints as `none`. -/
def wallpaperModeToString (value : Int) : String :=
  if value = WallpaperMode.WallpaperTransparent.toInt then "transparent"
  else if value = WallpaperMode.WallpaperStretch.toInt then "stretch"
  else if value = WallpaperMode.WallpaperFit.toInt then "fit"
  else if value = WallpaperMode.WallpaperCenter.toInt then "center"
  else if value = WallpaperMode.WallpaperTile.toInt then "tile"
  else "none"

def wallpaperModeFromString (str : String) : Int :=
  if str = "transparent" then WallpaperMode.WallpaperTransparent.toInt
  else if str = "stretch" then WallpaperMode.WallpaperStretch.toInt
  else if str = "fit" then WallpaperMode.WallpaperFit.toInt
  else if str = "center" then WallpaperMode.WallpaperCenter.toInt
  else if str = "tile" then WallpaperMode.WallpaperTile.toInt
  else WallpaperMode.WallpaperNone.toInt

def sidePaneModeToString (value : SidePaneMode) : String :=
  match value with
  | ModePlaces => "places"
  | ModeDirTree => "dirtree"
  | ModeNone => "none"

def sidePaneModeFromString (str : String) : SidePaneMode :=
  if str = "none" then ModeNone
  else if str = "dirtree" then ModeDirTree
  else ModePlaces

/-! ### Token tables, as the images of the encoders -/

def bookmarkOpenMethodTokens : List String :=
  [OpenInCurrentTab, OpenInNewTab, OpenInNewWindow, OpenInLastActiveWindow].map
    bookmarkOpenMethodToString

def wallpaperModeTokens : List String :=
  declaredWallpaperModes.map wallpaperModeToString

def viewModeTokens : List String :=
  [IconMode, CompactMode, DetailedListMode, ThumbnailMode].map viewModeToString

def sidePaneModeTokens : List String :=
  [ModePlaces, ModeDirTree, ModeNone].map sidePaneModeToString

def sortOrderTokens : List String :=
  [AscendingOrder, DescendingOrder].map sortOrderToString

def sortColumnTokens : List String :=
  [ColumnFileName, ColumnFileType, ColumnFileSize, ColumnFileMTime, ColumnFileOwner].map
    sortColumnToString

/-! ## Qt values the store relies on

`QVariant`, the string/number conversions behind `toInt`/`toBool`/`toString`,
and the slice of `QSettings` (INI format) that `loadFile`/`saveFile` use. -/

/-- The kinds of `QVariant` the settings code creates or receives. -/
inductive QVariant
  | invalid
  | string (s : String)
  | bool (b : Bool)
  | int (n : Int)
  deriving DecidableEq, Repr

/-- Conversion to C++ `int`: the value is reduced into `[-2^31, 2^31)`. -/
def wrapInt32 (n : Int) : Int :=
  (n + 2147483648) % 4294967296 - 2147483648

/-- The values a C++ `int` can hold. -/
def isInt32 (n : Int) : Prop :=
  -2147483648 ≤ n ∧ n < 2147483648

instance (n : Int) : Decidable (isInt32 n) := by
  unfold isInt32; infer_instance

/-- The decimal text of an integer (`QString::number`). -/
def qstringNumber (n : Int) : String :=
  if n < 0 then String.mk ('-' :: Nat.toDigits 10 n.natAbs) else String.mk (Nat.toDigits 10 n.natAbs)

/-- The value of a run of decimal digits. -/
def digitsToNat (cs : List Char) : Nat :=
  cs.foldl (fun n c => 10 * n + (c.toNat - 48)) 0

/-- An optional leading sign: whether it is a minus, and the rest of the text. -/
def splitSign : List Char → Bool × List Char
  | '-' :: ds => (true, ds)
  | '+' :: ds => (false, ds)
  | ds => (false, ds)

/-- The string to `qlonglong` conversion (`QString::toLongLong`, C locale,
base 10): surrounding white space is skipped, one sign is allowed, at least
one digit is required and the value must fit in 64 bits. -/
def parseLongLong (cs : List Char) : Option Int :=
  let cs := (cs.dropWhile Char.isWhitespace).rdropWhile Char.isWhitespace
  let signed := splitSign cs
  if signed.2 = [] ∨ signed.2.all Char.isDigit = false then none
  else
    let m : Int := (digitsToNat signed.2 : Nat)
    let v : Int := if signed.1 then -m else m
    if -9223372036854775808 ≤ v ∧ v < 9223372036854775808 then some v else none

/-- The lower-cased text compared by `QVariant::toBool`. -/
def qLower (s : String) : String :=
  String.mk (s.data.map Char.toLower)

namespace QVariant

/-- The conversion `QVariant::toString()`: an invalid variant gives the empty string. -/
def toString : QVariant → String
  | invalid => ""
  | string s => s
  | bool b => if b then "true" else "false"
  | int n => qstringNumber n

/-- The conversion `QVariant::toBool()`: a string is false exactly when its lower-cased text
is empty, `0` or `false`. -/
def toBool : QVariant → Bool
  | invalid => false
  | string s => !(decide (qLower s = "") || decide (qLower s = "0") || decide (qLower s = "false"))
  | bool b => b
  | int n => decide (n ≠ 0)

/-- The conversion `QVariant::toInt()`: a string goes through `toLongLong` and is narrowed to
`int`; what does not convert gives `0`. -/
def toInt : QVariant → Int
  | invalid => 0
  | string s =>
    match parseLongLong s.data with
    | some n => wrapInt32 n
    | none => 0
  | bool b => if b then 1 else 0
  | int n => n

end QVariant

/-- The content of a settings file as `QSettings` presents it: for a group and
a key, the stored text. Every value read back from an INI file is a string. -/
abbrev IniFile := List ((String × String) × String)

namespace IniFile

/-- The call `settings.contains(key)` inside group `group`. -/
def contains (settings : IniFile) (group key : String) : Bool :=
  (settings.lookup (group, key)).isSome

/-- The call `settings.value(key)` inside group `group`: an invalid variant when the key
is absent. -/
def value (settings : IniFile) (group key : String) : QVariant :=
  match settings.lookup (group, key) with
  | some s => QVariant.string s
  | none => QVariant.invalid

/-- The call `settings.value(key, defaultValue)` inside group `group`. -/
def valueD (settings : IniFile) (group key : String) (defaultValue : QVariant) : QVariant :=
  match settings.lookup (group, key) with
  | some s => QVariant.string s
  | none => defaultValue

/-- The call `settings.setValue(key, value)` inside group `group`: the entry replaces
any earlier one; the file keeps the text of the value. -/
def setValue (settings : IniFile) (group key : String) (value : QVariant) : IniFile :=
  ((group, key), value.toString) :: settings.filter (fun e => decide (e.1 ≠ (group, key)))

end IniFile

/-- What the store takes from Qt's GUI classes, from the locale and from
libfm-qt headers, none of it part of the sources: colours and fonts with their
text forms, the local 8-bit form of a string, and the integer value of the
`IconMode` enumerator. -/
structure External (QColor QFont : Type) where
  /-- The colour `QColor()`, the colour of a value-initialised member. -/
  invalidColor : QColor
  /-- The colour after `setNamedColor(name)` (it does not depend on the colour before). -/
  setNamedColor : String → QColor
  /-- The text `QColor::name()` of a colour. -/
  colorName : QColor → String
  /-- The font `QFont()`, the font of a default-constructed member. -/
  defaultFont : QFont
  /-- The font `QApplication::font()`. -/
  applicationFont : QFont
  /-- The font after `fromString(text)` is called on a font. -/
  fontFromString : QFont → String → QFont
  /-- The text `QFont::toString()` of a font. -/
  fontToString : QFont → String
  /-- The integer value of `Fm::FolderView::IconMode`. -/
  iconModeValue : Int
  /-- The text held by the bytes of `QString::toLocal8Bit()`: the string itself
  where the encoding of the locale can express it, something else (characters
  dropped or replaced) where it cannot. -/
  toLocal8Bit : String → String

/-! ## The settings record and the shared libfm configuration -/

/-- The members of `Settings` that the constructor, `loadFile` and `saveFile`
mention. The two thumbnail limits are read through the getters
`maxThumbnailFileSize()` and `thumbnailLocalFilesOnly()`; following the spec
(the setter stores the value and pushes it to the shared configuration) they
are kept as members here. -/
structure Settings (QColor QFont : Type) where
  profileName_ : String
  supportTrash_ : Bool
  fallbackIconThemeName_ : String
  useFallbackIconTheme_ : Bool
  bookmarkOpenMethod_ : OpenDirTargetType
  suCommand_ : String
  terminal_ : String
  mountOnStartup_ : Bool
  mountRemovable_ : Bool
  autoRun_ : Bool
  closeOnUnmount_ : Bool
  wallpaperMode_ : Int
  wallpaper_ : String
  desktopBgColor_ : QColor
  desktopFgColor_ : QColor
  desktopShadowColor_ : QColor
  desktopFont_ : QFont
  desktopShowHidden_ : Bool
  desktopSortOrder_ : SortOrder
  desktopSortColumn_ : ColumnId
  alwaysShowTabs_ : Bool
  showTabClose_ : Bool
  rememberWindowSize_ : Bool
  fixedWindowWidth_ : Int
  fixedWindowHeight_ : Int
  lastWindowWidth_ : Int
  lastWindowHeight_ : Int
  lastWindowMaximized_ : Bool
  splitterPos_ : Int
  sidePaneMode_ : SidePaneMode
  viewMode_ : ViewMode
  showHidden_ : Bool
  sortOrder_ : SortOrder
  sortColumn_ : ColumnId
  sortFolderFirst_ : Bool
  showFilter_ : Bool
  backupAsHidden_ : Bool
  showFullNames_ : Bool
  shadowHidden_ : Bool
  spatialMode_ : Bool
  dirInfoWrite_ : Bool
  singleClick_ : Bool
  autoSelectionDelay_ : Int
  confirmDelete_ : Bool
  noUsbTrash_ : Bool
  confirmTrash_ : Bool
  quickExec_ : Bool
  showThumbnails_ : Bool
  maxThumbnailFileSize_ : Int
  thumbnailLocalFilesOnly_ : Bool
  archiver_ : String
  siUnit_ : Bool
  onlyUserTemplates_ : Bool
  templateTypeOnce_ : Bool
  templateRunApp_ : Bool
  bigIconSize_ : Int
  smallIconSize_ : Int
  sidePaneIconSize_ : Int
  thumbnailIconSize_ : Int

/-- Modelled from the spec: the external shared configuration object
(`fm_config` of libfm) as far as the side-effect setters reach it, together
with the change notifications emitted on it, oldest first. -/
structure FmConfig where
  terminal : String
  archiver : String
  no_usb_trash : Bool
  quick_exec : Bool
  backup_as_hidden : Bool
  thumbnail_max : Int
  thumbnail_local : Bool
  only_user_templates : Bool
  template_type_once : Bool
  template_run_app : Bool
  signals : List String

/-- The settings object together with the shared configuration it writes to. -/
structure State (QColor QFont : Type) where
  settings : Settings QColor QFont
  fm_config : FmConfig

section Store

variable {QColor QFont : Type}

/-- The constructor `Settings::Settings()` (lines 51-103). `supportTrash` is
the answer of `Fm::uriExists("trash:///")`, `themeName` is `QIcon::themeName()`.
Members that the initialiser list does not mention keep what `raw`, the storage
the object is built in, holds, except the class-typed ones, which are
default-constructed. -/
def Settings.ctor (ext : External QColor QFont) (supportTrash : Bool) (themeName : String)
    (raw : Settings QColor QFont) : Settings QColor QFont :=
  { raw with
    profileName_ := ""
    desktopFont_ := ext.defaultFont
    supportTrash_ := supportTrash
    fallbackIconThemeName_ := ""
    useFallbackIconTheme_ := decide (themeName = "") || decide (themeName = "hicolor")
    bookmarkOpenMethod_ := OpenInCurrentTab
    suCommand_ := ""
    terminal_ := ""
    mountOnStartup_ := true
    mountRemovable_ := true
    autoRun_ := true
    closeOnUnmount_ := true
    wallpaperMode_ := 0
    wallpaper_ := ""
    desktopBgColor_ := ext.invalidColor
    desktopFgColor_ := ext.invalidColor
    desktopShadowColor_ := ext.invalidColor
    desktopShowHidden_ := false
    desktopSortOrder_ := AscendingOrder
    desktopSortColumn_ := ColumnFileName
    alwaysShowTabs_ := false
    showTabClose_ := true
    rememberWindowSize_ := true
    fixedWindowWidth_ := 640
    fixedWindowHeight_ := 480
    lastWindowWidth_ := 640
    lastWindowHeight_ := 480
    lastWindowMaximized_ := false
    splitterPos_ := 120
    sidePaneMode_ := ModePlaces
    viewMode_ := IconMode
    showHidden_ := false
    sortOrder_ := AscendingOrder
    sortColumn_ := ColumnFileName
    sortFolderFirst_ := true
    showFilter_ := false
    spatialMode_ := false
    dirInfoWrite_ := true
    singleClick_ := false
    autoSelectionDelay_ := 600
    confirmDelete_ := true
    noUsbTrash_ := false
    confirmTrash_ := false
    quickExec_ := true
    showThumbnails_ := true
    archiver_ := ""
    siUnit_ := false
    bigIconSize_ := 48
    smallIconSize_ := 24
    sidePaneIconSize_ := 16
    thumbnailIconSize_ := 128 }

/-- The call `g_signal_emit_by_name(fm_config, name)`: one more notification. -/
def FmConfig.emit (c : FmConfig) (name : String) : FmConfig :=
  { c with signals := c.signals ++ [name] }

/-- The copy `g_strdup(bytes.constData())` of a byte array read as a C string:
the text up to the first NUL. -/
def g_strdup (bytes : String) : String :=
  String.mk (bytes.data.takeWhile fun c => decide (c ≠ Char.ofNat 0))

/-- The setter `Settings::setTerminal` (lines 513-519): the member is assigned, the copy
held by `fm_config` is freed and replaced by
`g_strdup(terminal_.toLocal8Bit().constData())`, then `changed::terminal` is
emitted. -/
def setTerminal (ext : External QColor QFont) (st : State QColor QFont)
    (terminalCommand : String) : State QColor QFont :=
  let settings := { st.settings with terminal_ := terminalCommand }
  let fm_config :=
    { st.fm_config with terminal := g_strdup (ext.toLocal8Bit settings.terminal_) }
  { settings := settings, fm_config := fm_config.emit "changed::terminal" }

/-- Modelled from the spec: `setArchiver` (defined in the header, not among the
sources) stores the value, pushes it to the shared configuration and notifies once. -/
def setArchiver (st : State QColor QFont) (archiver : String) : State QColor QFont :=
  let settings := { st.settings with archiver_ := archiver }
  let fm_config := { st.fm_config with archiver := settings.archiver_ }
  { settings := settings, fm_config := fm_config.emit "changed::archiver" }

/-- Modelled from the spec: `setSiUnit` (defined in the header, not among the
sources) is not one of the side-effect setters: a plain assignment. -/
def setSiUnit (st : State QColor QFont) (siUnit : Bool) : State QColor QFont :=
  { st with settings := { st.settings with siUnit_ := siUnit } }

/-- Modelled from the spec: `setOnlyUserTemplates` (header, not among the
sources), a side-effect setter. -/
def setOnlyUserTemplates (st : State QColor QFont) (value : Bool) : State QColor QFont :=
  let settings := { st.settings with onlyUserTemplates_ := value }
  let fm_config := { st.fm_config with only_user_templates := settings.onlyUserTemplates_ }
  { settings := settings, fm_config := fm_config.emit "changed::only_user_templates" }

/-- Modelled from the spec: `setTemplateTypeOnce` (header, not among the
sources), a side-effect setter. -/
def setTemplateTypeOnce (st : State QColor QFont) (value : Bool) : State QColor QFont :=
  let settings := { st.settings with templateTypeOnce_ := value }
  let fm_config := { st.fm_config with template_type_once := settings.templateTypeOnce_ }
  { settings := settings, fm_config := fm_config.emit "changed::template_type_once" }

/-- Modelled from the spec: `setTemplateRunApp` (header, not among the
sources), a side-effect setter. -/
def setTemplateRunApp (st : State QColor QFont) (value : Bool) : State QColor QFont :=
  let settings := { st.settings with templateRunApp_ := value }
  let fm_config := { st.fm_config with template_run_app := settings.templateRunApp_ }
  { settings := settings, fm_config := fm_config.emit "changed::template_run_app" }

/-- Modelled from the spec: `setNoUsbTrash` (header, not among the sources), a
side-effect setter. -/
def setNoUsbTrash (st : State QColor QFont) (noUsbTrash : Bool) : State QColor QFont :=
  let settings := { st.settings with noUsbTrash_ := noUsbTrash }
  let fm_config := { st.fm_config with no_usb_trash := settings.noUsbTrash_ }
  { settings := settings, fm_config := fm_config.emit "changed::no_usb_trash" }

/-- Modelled from the spec: `setQuickExec` (header, not among the sources), a
side-effect setter. -/
def setQuickExec (st : State QColor QFont) (value : Bool) : State QColor QFont :=
  let settings := { st.settings with quickExec_ := value }
  let fm_config := { st.fm_config with quick_exec := settings.quickExec_ }
  { settings := settings, fm_config := fm_config.emit "changed::quick_exec" }

/-- Modelled from the spec: `setMaxThumbnailFileSize` (header, not among the
sources), a side-effect setter. -/
def setMaxThumbnailFileSize (st : State QColor QFont) (size : Int) : State QColor QFont :=
  let settings := { st.settings with maxThumbnailFileSize_ := size }
  let fm_config := { st.fm_config with thumbnail_max := settings.maxThumbnailFileSize_ }
  { settings := settings, fm_config := fm_config.emit "changed::thumbnail_max" }

/-- Modelled from the spec: `setThumbnailLocalFilesOnly` (header, not among the
sources), a side-effect setter. -/
def setThumbnailLocalFilesOnly (st : State QColor QFont) (value : Bool) : State QColor QFont :=
  let settings := { st.settings with thumbnailLocalFilesOnly_ := value }
  let fm_config := { st.fm_config with thumbnail_local := settings.thumbnailLocalFilesOnly_ }
  { settings := settings, fm_config := fm_config.emit "changed::thumbnail_local" }

/-- Modelled from the spec: `setBackupAsHidden` (header, not among the
sources), a side-effect setter. -/
def setBackupAsHidden (st : State QColor QFont) (value : Bool) : State QColor QFont :=
  let settings := { st.settings with backupAsHidden_ := value }
  let fm_config := { st.fm_config with backup_as_hidden := settings.backupAsHidden_ }
  { settings := settings, fm_config := fm_config.emit "changed::backup_as_hidden" }

/-- Modelled from the spec: the getter `maxThumbnailFileSize()` (header, not
among the sources). -/
def Settings.maxThumbnailFileSize (s : Settings QColor QFont) : Int :=
  s.maxThumbnailFileSize_

/-- Modelled from the spec: the getter `thumbnailLocalFilesOnly()` (header, not
among the sources). -/
def Settings.thumbnailLocalFilesOnly (s : Settings QColor QFont) : Bool :=
  s.thumbnailLocalFilesOnly_

/-- Every `int` member other than the wallpaper mode holds a C++ `int`. -/
def Settings.intsInRange (s : Settings QColor QFont) : Prop :=
  isInt32 s.fixedWindowWidth_ ∧ isInt32 s.fixedWindowHeight_ ∧ isInt32 s.lastWindowWidth_ ∧
  isInt32 s.lastWindowHeight_ ∧ isInt32 s.splitterPos_ ∧ isInt32 s.autoSelectionDelay_ ∧
  isInt32 s.maxThumbnailFileSize_ ∧ isInt32 s.bigIconSize_ ∧ isInt32 s.smallIconSize_ ∧
  isInt32 s.sidePaneIconSize_ ∧ isInt32 s.thumbnailIconSize_

instance (s : Settings QColor QFont) : Decidable s.intsInRange := by
  unfold Settings.intsInRange; infer_instance

/-- An assignment to members of the settings object. -/
def State.assign (st : State QColor QFont)
    (f : Settings QColor QFont → Settings QColor QFont) : State QColor QFont :=
  { st with settings := f st.settings }

/-! ## Reading and writing the grouped key/value file -/

/-- The body of `Settings::loadFile` (lines 146-238) on the content `settings`
of the opened file; the group of each key is the one opened by the enclosing
`beginGroup`. The two conditional assignments (the fallback icon theme name
when the stored one is empty, the desktop font depending on whether the key
`Font` is present) are written as the assignment of a conditional value. -/
def loadFrom (ext : External QColor QFont) (settings : IniFile)
    (st : State QColor QFont) : State QColor QFont :=
  -- group "System"
  let st := st.assign fun s =>
    { s with fallbackIconThemeName_ := (settings.value "System" "FallbackIconThemeName").toString }
  let st := st.assign fun s =>
    { s with fallbackIconThemeName_ :=
        if s.fallbackIconThemeName_ = "" then "elementary" else s.fallbackIconThemeName_ }
  let st := st.assign fun s =>
    { s with suCommand_ := (settings.valueD "System" "SuCommand" (.string "gksu %s")).toString }
  let st := setTerminal ext st (settings.valueD "System" "Terminal" (.string "xterm")).toString
  let st := setArchiver st (settings.valueD "System" "Archiver" (.string "file-roller")).toString
  let st := setSiUnit st (settings.valueD "System" "SIUnit" (.bool false)).toBool
  let st := setOnlyUserTemplates st (settings.valueD "System" "OnlyUserTemplates" (.bool false)).toBool
  let st := setTemplateTypeOnce st (settings.valueD "System" "OemplateTypeOnce" (.bool false)).toBool
  let st := setTemplateRunApp st (settings.valueD "System" "TemplateRunApp" (.bool false)).toBool
  -- group "Behavior"
  let st := st.assign fun s =>
    { s with bookmarkOpenMethod_ :=
        bookmarkOpenMethodFromString (settings.value "Behavior" "BookmarkOpenMethod").toString }
  let st := st.assign fun s =>
    { s with spatialMode_ := (settings.valueD "Behavior" "SpatialMode" (.bool false)).toBool }
  let st := st.assign fun s =>
    { s with dirInfoWrite_ := (settings.valueD "Behavior" "DirInfoWrite" (.bool true)).toBool }
  let st := st.assign fun s =>
    { s with singleClick_ := (settings.valueD "Behavior" "SingleClick" (.bool false)).toBool }
  let st := st.assign fun s =>
    { s with autoSelectionDelay_ := (settings.valueD "Behavior" "AutoSelectionDelay" (.int 600)).toInt }
  let st := st.assign fun s =>
    { s with confirmDelete_ := (settings.valueD "Behavior" "ConfirmDelete" (.bool true)).toBool }
  let st := setNoUsbTrash st (settings.valueD "Behavior" "NoUsbTrash" (.bool false)).toBool
  let st := st.assign fun s =>
    { s with confirmTrash_ := (settings.valueD "Behavior" "ConfirmTrash" (.bool false)).toBool }
  let st := setQuickExec st (settings.valueD "Behavior" "QuickExec" (.bool true)).toBool
  -- group "Desktop"
  let st := st.assign fun s =>
    { s with wallpaperMode_ :=
        wallpaperModeFromString (settings.value "Desktop" "WallpaperMode").toString }
  let st := st.assign fun s =>
    { s with wallpaper_ := (settings.value "Desktop" "Wallpaper").toString }
  let st := st.assign fun s =>
    { s with desktopBgColor_ :=
        ext.setNamedColor (settings.valueD "Desktop" "BgColor" (.string "#4e7fb4")).toString }
  let st := st.assign fun s =>
    { s with desktopFgColor_ :=
        ext.setNamedColor (settings.valueD "Desktop" "FgColor" (.string "#ffffff")).toString }
  let st := st.assign fun s =>
    { s with desktopShadowColor_ :=
        ext.setNamedColor (settings.valueD "Desktop" "ShadowColor" (.string "#000000")).toString }
  let st := st.assign fun s =>
    { s with desktopFont_ :=
        if settings.contains "Desktop" "Font" then
          ext.fontFromString s.desktopFont_ (settings.value "Desktop" "Font").toString
        else ext.applicationFont }
  let st := st.assign fun s =>
    { s with desktopShowHidden_ := (settings.valueD "Desktop" "ShowHidden" (.bool false)).toBool }
  let st := st.assign fun s =>
    { s with desktopSortOrder_ := sortOrderFromString (settings.value "Desktop" "SortOrder").toString }
  let st := st.assign fun s =>
    { s with desktopSortColumn_ :=
        sortColumnFromString (settings.value "Desktop" "SortColumn").toString }
  -- group "Volume"
  let st := st.assign fun s =>
    { s with mountOnStartup_ := (settings.valueD "Volume" "MountOnStartup" (.bool true)).toBool }
  let st := st.assign fun s =>
    { s with mountRemovable_ := (settings.valueD "Volume" "MountRemovable" (.bool true)).toBool }
  let st := st.assign fun s =>
    { s with autoRun_ := (settings.valueD "Volume" "AutoRun" (.bool true)).toBool }
  let st := st.assign fun s =>
    { s with closeOnUnmount_ := (settings.valueD "Volume" "CloseOnUnmount" (.bool true)).toBool }
  -- group "Thumbnail"
  let st := st.assign fun s =>
    { s with showThumbnails_ := (settings.valueD "Thumbnail" "ShowThumbnails" (.bool true)).toBool }
  let st := setMaxThumbnailFileSize st
    (settings.valueD "Thumbnail" "MaxThumbnailFileSize" (.int 4096)).toInt
  let st := setThumbnailLocalFilesOnly st
    (settings.valueD "Thumbnail" "ThumbnailLocalFilesOnly" (.bool true)).toBool
  -- group "FolderView"
  let st := st.assign fun s =>
    { s with viewMode_ :=
        viewModeFromString (settings.valueD "FolderView" "Mode" (.int ext.iconModeValue)).toString }
  let st := st.assign fun s =>
    { s with showHidden_ := (settings.valueD "FolderView" "ShowHidden" (.bool false)).toBool }
  let st := st.assign fun s =>
    { s with sortOrder_ := sortOrderFromString (settings.value "FolderView" "SortOrder").toString }
  let st := st.assign fun s =>
    { s with sortColumn_ := sortColumnFromString (settings.value "FolderView" "SortColumn").toString }
  let st := st.assign fun s =>
    { s with sortFolderFirst_ := (settings.valueD "FolderView" "SortFolderFirst" (.bool true)).toBool }
  let st := st.assign fun s =>
    { s with showFilter_ := (settings.valueD "FolderView" "ShowFilter" (.bool false)).toBool }
  let st := setBackupAsHidden st (settings.valueD "FolderView" "BackupAsHidden" (.bool false)).toBool
  let st := st.assign fun s =>
    { s with showFullNames_ := (settings.valueD "FolderView" "ShowFullNames" (.bool false)).toBool }
  let st := st.assign fun s =>
    { s with shadowHidden_ := (settings.valueD "FolderView" "ShadowHidden" (.bool false)).toBool }
  let st := st.assign fun s =>
    { s with bigIconSize_ := (settings.valueD "FolderView" "BigIconSize" (.int 36)).toInt }
  let st := st.assign fun s =>
    { s with smallIconSize_ := (settings.valueD "FolderView" "SmallIconSize" (.int 16)).toInt }
  let st := st.assign fun s =>
    { s with sidePaneIconSize_ := (settings.valueD "FolderView" "SidePaneIconSize" (.int 12)).toInt }
  let st := st.assign fun s =>
    { s with thumbnailIconSize_ := (settings.valueD "FolderView" "ThumbnailIconSize" (.int 128)).toInt }
  -- group "Window"
  let st := st.assign fun s =>
    { s with fixedWindowWidth_ := (settings.valueD "Window" "FixedWidth" (.int 640)).toInt }
  let st := st.assign fun s =>
    { s with fixedWindowHeight_ := (settings.valueD "Window" "FixedHeight" (.int 480)).toInt }
  let st := st.assign fun s =>
    { s with lastWindowWidth_ := (settings.valueD "Window" "LastWindowWidth" (.int 640)).toInt }
  let st := st.assign fun s =>
    { s with lastWindowHeight_ := (settings.valueD "Window" "LastWindowHeight" (.int 480)).toInt }
  let st := st.assign fun s =>
    { s with lastWindowMaximized_ :=
        (settings.valueD "Window" "LastWindowMaximized" (.bool false)).toBool }
  let st := st.assign fun s =>
    { s with rememberWindowSize_ := (settings.valueD "Window" "RememberWindowSize" (.bool true)).toBool }
  let st := st.assign fun s =>
    { s with alwaysShowTabs_ := (settings.valueD "Window" "AlwaysShowTabs" (.bool false)).toBool }
  let st := st.assign fun s =>
    { s with showTabClose_ := (settings.valueD "Window" "ShowTabClose" (.bool true)).toBool }
  let st := st.assign fun s =>
    { s with splitterPos_ := (settings.valueD "Window" "SplitterPos" (.int 150)).toInt }
  let st := st.assign fun s =>
    { s with sidePaneMode_ := sidePaneModeFromString (settings.value "Window" "SidePaneMode").toString }
  st

/-- The body of `Settings::saveFile` (lines 246-329): the content of the file
after every `setValue`, starting from the content `settings` it was opened with. -/
def saveTo (ext : External QColor QFont) (settings : IniFile)
    (s : Settings QColor QFont) : IniFile :=
  -- group "System"
  let settings := settings.setValue "System" "FallbackIconThemeName" (.string s.fallbackIconThemeName_)
  let settings := settings.setValue "System" "SuCommand" (.string s.suCommand_)
  let settings := settings.setValue "System" "Terminal" (.string s.terminal_)
  let settings := settings.setValue "System" "Archiver" (.string s.archiver_)
  let settings := settings.setValue "System" "SIUnit" (.bool s.siUnit_)
  let settings := settings.setValue "System" "OnlyUserTemplates" (.bool s.onlyUserTemplates_)
  let settings := settings.setValue "System" "OemplateTypeOnce" (.bool s.templateTypeOnce_)
  let settings := settings.setValue "System" "TemplateRunApp" (.bool s.templateRunApp_)
  -- group "Behavior"
  let settings := settings.setValue "Behavior" "BookmarkOpenMethod"
    (.string (bookmarkOpenMethodToString s.bookmarkOpenMethod_))
  let settings := settings.setValue "Behavior" "SingleClick" (.bool s.singleClick_)
  let settings := settings.setValue "Behavior" "SpatialMode" (.bool s.spatialMode_)
  let settings := settings.setValue "Behavior" "DirInfoWrite" (.bool s.dirInfoWrite_)
  let settings := settings.setValue "Behavior" "AutoSelectionDelay" (.int s.autoSelectionDelay_)
  let settings := settings.setValue "Behavior" "ConfirmDelete" (.bool s.confirmDelete_)
  let settings := settings.setValue "Behavior" "NoUsbTrash" (.bool s.noUsbTrash_)
  let settings := settings.setValue "Behavior" "ConfirmTrash" (.bool s.confirmTrash_)
  let settings := settings.setValue "Behavior" "QuickExec" (.bool s.quickExec_)
  -- group "Desktop"
  let settings := settings.setValue "Desktop" "WallpaperMode"
    (.string (wallpaperModeToString s.wallpaperMode_))
  let settings := settings.setValue "Desktop" "Wallpaper" (.string s.wallpaper_)
  let settings := settings.setValue "Desktop" "BgColor" (.string (ext.colorName s.desktopBgColor_))
  let settings := settings.setValue "Desktop" "FgColor" (.string (ext.colorName s.desktopFgColor_))
  let settings := settings.setValue "Desktop" "ShadowColor"
    (.string (ext.colorName s.desktopShadowColor_))
  let settings := settings.setValue "Desktop" "Font" (.string (ext.fontToString s.desktopFont_))
  let settings := settings.setValue "Desktop" "ShowHidden" (.bool s.desktopShowHidden_)
  let settings := settings.setValue "Desktop" "SortOrder"
    (.string (sortOrderToString s.desktopSortOrder_))
  let settings := settings.setValue "Desktop" "SortColumn"
    (.string (sortColumnToString s.desktopSortColumn_))
  -- group "Volume"
  let settings := settings.setValue "Volume" "MountOnStartup" (.bool s.mountOnStartup_)
  let settings := settings.setValue "Volume" "MountRemovable" (.bool s.mountRemovable_)
  let settings := settings.setValue "Volume" "AutoRun" (.bool s.autoRun_)
  let settings := settings.setValue "Volume" "CloseOnUnmount" (.bool s.closeOnUnmount_)
  -- group "Thumbnail"
  let settings := settings.setValue "Thumbnail" "ShowThumbnails" (.bool s.showThumbnails_)
  let settings := settings.setValue "Thumbnail" "MaxThumbnailFileSize" (.int s.maxThumbnailFileSize)
  let settings := settings.setValue "Thumbnail" "ThumbnailLocalFilesOnly"
    (.bool s.thumbnailLocalFilesOnly)
  -- group "FolderView"
  let settings := settings.setValue "FolderView" "Mode" (.string (viewModeToString s.viewMode_))
  let settings := settings.setValue "FolderView" "ShowHidden" (.bool s.showHidden_)
  let settings := settings.setValue "FolderView" "SortOrder" (.string (sortOrderToString s.sortOrder_))
  let settings := settings.setValue "FolderView" "SortColumn"
    (.string (sortColumnToString s.sortColumn_))
  let settings := settings.setValue "FolderView" "SortFolderFirst" (.bool s.sortFolderFirst_)
  let settings := settings.setValue "FolderView" "ShowFilter" (.bool s.showFilter_)
  let settings := settings.setValue "FolderView" "BackupAsHidden" (.bool s.backupAsHidden_)
  let settings := settings.setValue "FolderView" "ShowFullNames" (.bool s.showFullNames_)
  let settings := settings.setValue "FolderView" "ShadowHidden" (.bool s.shadowHidden_)
  let settings := settings.setValue "FolderView" "BigIconSize" (.int s.bigIconSize_)
  let settings := settings.setValue "FolderView" "SmallIconSize" (.int s.smallIconSize_)
  let settings := settings.setValue "FolderView" "SidePaneIconSize" (.int s.sidePaneIconSize_)
  let settings := settings.setValue "FolderView" "ThumbnailIconSize" (.int s.thumbnailIconSize_)
  -- group "Window"
  let settings := settings.setValue "Window" "FixedWidth" (.int s.fixedWindowWidth_)
  let settings := settings.setValue "Window" "FixedHeight" (.int s.fixedWindowHeight_)
  let settings := settings.setValue "Window" "LastWindowWidth" (.int s.lastWindowWidth_)
  let settings := settings.setValue "Window" "LastWindowHeight" (.int s.lastWindowHeight_)
  let settings := settings.setValue "Window" "LastWindowMaximized" (.bool s.lastWindowMaximized_)
  let settings := settings.setValue "Window" "RememberWindowSize" (.bool s.rememberWindowSize_)
  let settings := settings.setValue "Window" "AlwaysShowTabs" (.bool s.alwaysShowTabs_)
  let settings := settings.setValue "Window" "ShowTabClose" (.bool s.showTabClose_)
  let settings := settings.setValue "Window" "SplitterPos" (.int s.splitterPos_)
  let settings := settings.setValue "Window" "SidePaneMode"
    (.string (sidePaneModeToString s.sidePaneMode_))
  settings

/-! ## The file system and the environment -/

/-- The file system as the store sees it: which directories exist, what
`QSettings` finds in the file at a path (`none` when nothing can be read
there), and whether `QSettings` can write the file at a path. -/
structure FileSystem where
  dirExists : String → Bool
  files : String → Option IniFile
  writable : String → Bool

/-- The content a `QSettings` object starts with: nothing when the file is missing
or unreadable. -/
def FileSystem.openSettings (fs : FileSystem) (filePath : String) : IniFile :=
  (fs.files filePath).getD []

/-- The write-back when a modified `QSettings` object goes away: it is skipped
silently when the file cannot be written; otherwise the file holds the new
content and the directories above it exist. -/
def FileSystem.sync (fs : FileSystem) (filePath : String) (content : IniFile) : FileSystem :=
  if fs.writable filePath then
    { fs with
      files := fun p => if p = filePath then some content else fs.files p
      dirExists := fun d => fs.dirExists d || (d.data ++ ['/']).isPrefixOf filePath.data }
  else fs

/-- The process environment and platform lookups of `profileDir`:
`qgetenv("XDG_CONFIG_HOME")` (`none` when unset), `QDir::homePath()` and the
list returned by `g_get_system_config_dirs()`. -/
structure Env where
  xdgConfigHome : Option String
  homePath : String
  systemConfigDirs : List String

/-- The settings object, the shared configuration and the file system. -/
structure World (QColor QFont : Type) where
  st : State QColor QFont
  fs : FileSystem

/-- The loop of `profileDir` (lines 121-128) over the remaining system
directories: the first existing candidate replaces `dirName` and ends the loop. -/
def fallbackSearch (fs : FileSystem) (profile : String) :
    List String → String → String
  | [], dirName => dirName
  | configDir :: rest, dirName =>
    let fallbackDir := configDir ++ "/filer/" ++ profile
    if fs.dirExists fallbackDir then fallbackDir
    else fallbackSearch fs profile rest dirName

/-- The resolver `Settings::profileDir` (lines 109-131). -/
def profileDir (env : Env) (fs : FileSystem) (profile : String) (useFallback : Bool) : String :=
  let dirName := env.xdgConfigHome.getD ""
  let dirName := if dirName = "" then env.homePath ++ "/.config" else dirName
  let dirName := dirName ++ "/filer/" ++ profile
  if !fs.dirExists dirName && useFallback then
    fallbackSearch fs profile env.systemConfigDirs dirName
  else dirName

/-- The method `Settings::loadFile` (lines 144-241): the file at `filePath` is opened
through `QSettings` and read into the members; the result is always `true`. -/
def loadFile (ext : External QColor QFont) (filePath : String)
    (w : World QColor QFont) : Bool × World QColor QFont :=
  let settings := w.fs.openSettings filePath
  (true, { w with st := loadFrom ext settings w.st })

/-- The method `Settings::saveFile` (lines 243-331): the file at `filePath` is opened
through `QSettings`, every member is written, and the content is written back
when the `QSettings` object goes away; the result is always `true`. -/
def saveFile (ext : External QColor QFont) (filePath : String)
    (w : World QColor QFont) : Bool × World QColor QFont :=
  let settings := w.fs.openSettings filePath
  (true, { w with fs := w.fs.sync filePath (saveTo ext settings w.st.settings) })

/-- The method `Settings::load` (lines 133-137). -/
def load (ext : External QColor QFont) (env : Env) (profile : String)
    (w : World QColor QFont) : Bool × World QColor QFont :=
  let w := { w with st := w.st.assign fun s => { s with profileName_ := profile } }
  let fileName := profileDir env w.fs profile true ++ "/settings.conf"
  loadFile ext fileName w

/-- The method `Settings::save` (lines 139-142); the header gives `useFallback` the default
`false`, which is what the call here relies on. -/
def save (ext : External QColor QFont) (env : Env) (profile : String)
    (w : World QColor QFont) : Bool × World QColor QFont :=
  let fileName :=
    profileDir env w.fs (if profile = "" then w.st.settings.profileName_ else profile) false
      ++ "/settings.conf"
  saveFile ext fileName w

end Store

/-! ## The spec's description of the path resolver -/

/-- The config root in the words of the spec: the config-home override when it
is set and non-empty, else the home directory plus `/.config`. -/
def configRoot (env : Env) : String :=
  match env.xdgConfigHome with
  | some x => if x = "" then env.homePath ++ "/.config" else x
  | none => env.homePath ++ "/.config"

/-- The user-specific directory `<root>/filer/<profile>` in the words of the spec. -/
def userProfileDir (env : Env) (profile : String) : String :=
  configRoot env ++ "/filer/" ++ profile

/-! ## Concrete data for evaluation -/

/-- A stand-in for the Qt classes in concrete evaluations: a colour is the
text it was named with (the invalid colour prints as black), a font is its
description, and the locale encodes every string (UTF-8). -/
def textExternal : External String String where
  invalidColor := ""
  setNamedColor := fun name => name
  colorName := fun c => if c = "" then "#000000" else c
  defaultFont := ""
  applicationFont := "Sans,10"
  fontFromString := fun _ text => text
  fontToString := fun font => font
  iconModeValue := 0
  toLocal8Bit := fun s => s

/-- Storage with every member cleared. -/
def rawSettings : Settings String String where
  profileName_ := ""
  supportTrash_ := false
  fallbackIconThemeName_ := ""
  useFallbackIconTheme_ := false
  bookmarkOpenMethod_ := OpenInCurrentTab
  suCommand_ := ""
  terminal_ := ""
  mountOnStartup_ := false
  mountRemovable_ := false
  autoRun_ := false
  closeOnUnmount_ := false
  wallpaperMode_ := 0
  wallpaper_ := ""
  desktopBgColor_ := ""
  desktopFgColor_ := ""
  desktopShadowColor_ := ""
  desktopFont_ := ""
  desktopShowHidden_ := false
  desktopSortOrder_ := AscendingOrder
  desktopSortColumn_ := ColumnFileName
  alwaysShowTabs_ := false
  showTabClose_ := false
  rememberWindowSize_ := false
  fixedWindowWidth_ := 0
  fixedWindowHeight_ := 0
  lastWindowWidth_ := 0
  lastWindowHeight_ := 0
  lastWindowMaximized_ := false
  splitterPos_ := 0
  sidePaneMode_ := ModePlaces
  viewMode_ := IconMode
  showHidden_ := false
  sortOrder_ := AscendingOrder
  sortColumn_ := ColumnFileName
  sortFolderFirst_ := false
  showFilter_ := false
  backupAsHidden_ := false
  showFullNames_ := false
  shadowHidden_ := false
  spatialMode_ := false
  dirInfoWrite_ := false
  singleClick_ := false
  autoSelectionDelay_ := 0
  confirmDelete_ := false
  noUsbTrash_ := false
  confirmTrash_ := false
  quickExec_ := false
  showThumbnails_ := false
  maxThumbnailFileSize_ := 0
  thumbnailLocalFilesOnly_ := false
  archiver_ := ""
  siUnit_ := false
  onlyUserTemplates_ := false
  templateTypeOnce_ := false
  templateRunApp_ := false
  bigIconSize_ := 0
  smallIconSize_ := 0
  sidePaneIconSize_ := 0
  thumbnailIconSize_ := 0

/-- The settings object right after construction. -/
def freshSettings : Settings String String :=
  Settings.ctor textExternal true "" rawSettings

/-- A shared configuration nobody has written to yet. -/
def emptyFmConfig : FmConfig where
  terminal := ""
  archiver := ""
  no_usb_trash := false
  quick_exec := false
  backup_as_hidden := false
  thumbnail_max := 0
  thumbnail_local := false
  only_user_templates := false
  template_type_once := false
  template_run_app := false
  signals := []

/-- A file system without files or directories in which every file can be written. -/
def emptyFileSystem : FileSystem where
  dirExists := fun _ => false
  files := fun _ => none
  writable := fun _ => true

/-- The freshly constructed settings object over the empty file system. -/
def freshWorld : World String String where
  st := { settings := freshSettings, fm_config := emptyFmConfig }
  fs := emptyFileSystem

/-- A settings object ready to be saved: the fresh one with an icon theme chosen. -/
def themedWorld : World String String where
  st := { settings := { freshSettings with fallbackIconThemeName_ := "Adwaita" },
          fm_config := emptyFmConfig }
  fs := emptyFileSystem

/-- A settings object whose integer wallpaper mode is none of the declared ones. -/
def oddWallpaperWorld : World String String where
  st := { settings := { freshSettings with fallbackIconThemeName_ := "Adwaita", wallpaperMode_ := 7 },
          fm_config := emptyFmConfig }
  fs := emptyFileSystem

/-- A file holding only `Mode=thumbnail` in group `FolderView`. -/
def thumbnailOnlyFile : IniFile :=
  [(("FolderView", "Mode"), "thumbnail")]

/-- The fresh settings object over a file system whose user-specific file holds
only `Mode=thumbnail` in group `FolderView`. -/
def thumbnailWorld : World String String where
  st := { settings := freshSettings, fm_config := emptyFmConfig }
  fs :=
    { dirExists := fun d => decide (d = "/cfg/filer/default")
      files := fun p =>
        if p = "/cfg/filer/default/settings.conf" then some thumbnailOnlyFile else none
      writable := fun _ => true }

/-- The fresh settings object over a file system in which only a system-wide
profile directory exists and only the user-specific file can be written. -/
def systemOnlyWorld : World String String where
  st := { settings := freshSettings, fm_config := emptyFmConfig }
  fs :=
    { dirExists := fun d => decide (d = "/etc/xdg/filer/default")
      files := fun p =>
        if p = "/etc/xdg/filer/default/settings.conf" then some thumbnailOnlyFile else none
      writable := fun p => decide (p = "/home/user/.config/filer/default/settings.conf") }

/-- An environment without a config-home override. -/
def homeEnv : Env where
  xdgConfigHome := none
  homePath := "/home/user"
  systemConfigDirs := ["/etc/xdg", "/usr/local/etc/xdg"]

/-- An environment with the config-home override set. -/
def xdgEnv : Env where
  xdgConfigHome := some "/cfg"
  homePath := "/home/user"
  systemConfigDirs := ["/etc/xdg"]

end Filer

/-! # Theorems -/

set_option maxRecDepth 100000
set_option maxHeartbeats 1000000

namespace Filer

open OpenDirTargetType ViewMode SidePaneMode SortOrder ColumnId

/-! ## Auxiliary facts: conversions of `QVariant` -/

theorem digitChar_isDigit (k : Nat) (hk : k < 10) : (Nat.digitChar k).isDigit = true := by
  interval_cases k <;> decide

theorem digitChar_value (k : Nat) (hk : k < 10) : (Nat.digitChar k).toNat - 48 = k := by
  interval_cases k <;> decide

theorem isDigit_not_isWhitespace (c : Char) (h : c.isDigit = true) : c.isWhitespace = false := by
  by_contra hw
  simp only [Bool.not_eq_false] at hw
  simp only [Char.isWhitespace, Bool.or_eq_true, decide_eq_true_eq] at hw
  rcases hw with ((rfl | rfl) | rfl) | rfl <;> revert h <;> decide

theorem isDigit_ne_minus (c : Char) (h : c.isDigit = true) : c ≠ '-' := by
  rintro rfl; revert h; decide

theorem isDigit_ne_plus (c : Char) (h : c.isDigit = true) : c ≠ '+' := by
  rintro rfl; revert h; decide

theorem toDigitsCore_all_isDigit (fuel : Nat) :
    ∀ (n : Nat) (ds : List Char), (∀ c ∈ ds, c.isDigit = true) →
      ∀ c ∈ Nat.toDigitsCore 10 fuel n ds, c.isDigit = true := by
  induction fuel with
  | zero => intro n ds h; simpa [Nat.toDigitsCore] using h
  | succ fuel ih =>
    intro n ds h
    have hd : (Nat.digitChar (n % 10)).isDigit = true :=
      digitChar_isDigit _ (Nat.mod_lt _ (by decide))
    have hcons : ∀ c ∈ Nat.digitChar (n % 10) :: ds, c.isDigit = true := by
      intro c hc
      rcases List.mem_cons.mp hc with rfl | hc
      · exact hd
      · exact h c hc
    simp only [Nat.toDigitsCore]
    split
    · exact hcons
    · exact ih _ _ hcons

theorem toDigitsCore_value (fuel : Nat) :
    ∀ (n : Nat) (ds : List Char), n < fuel →
      (Nat.toDigitsCore 10 fuel n ds).foldl (fun a c => 10 * a + (c.toNat - 48)) 0
        = ds.foldl (fun a c => 10 * a + (c.toNat - 48)) n := by
  induction fuel with
  | zero => intro n ds h; omega
  | succ fuel ih =>
    intro n ds h
    have hv := digitChar_value (n % 10) (Nat.mod_lt _ (by decide))
    simp only [Nat.toDigitsCore]
    split
    · rename_i h0
      have hn : n % 10 = n := by omega
      simp only [List.foldl_cons, Nat.mul_zero, Nat.zero_add]
      rw [hv, hn]
    · rename_i h0
      rw [ih (n / 10) _ (by omega)]
      simp only [List.foldl_cons, hv]
      congr 1
      omega

theorem toDigits_all_isDigit (m : Nat) : ∀ c ∈ Nat.toDigits 10 m, c.isDigit = true :=
  toDigitsCore_all_isDigit _ _ _ (by simp)

theorem digitsToNat_toDigits (m : Nat) : digitsToNat (Nat.toDigits 10 m) = m := by
  unfold digitsToNat Nat.toDigits
  rw [toDigitsCore_value _ _ _ (Nat.lt_succ_self m)]
  rfl

theorem toDigits_ne_nil (m : Nat) : Nat.toDigits 10 m ≠ [] := by
  intro h
  have hlen := congrArg List.length h
  unfold Nat.toDigits at hlen
  simp only [Nat.toDigitsCore] at hlen
  split at hlen
  · simp at hlen
  · rw [Nat.toDigitsCore_lens_eq] at hlen
    simp at hlen

theorem trim_digits (l : List Char) (hne : l ≠ []) (hall : ∀ c ∈ l, c.isDigit = true) :
    (l.dropWhile Char.isWhitespace).rdropWhile Char.isWhitespace = l := by
  have h1 : l.dropWhile Char.isWhitespace = l := by
    cases l with
    | nil => rfl
    | cons c cs =>
      have := isDigit_not_isWhitespace c (hall c (List.mem_cons_self _ _))
      simp [List.dropWhile, this]
  rw [h1, List.rdropWhile_eq_self_iff]
  intro hl
  simp [isDigit_not_isWhitespace _ (hall _ (List.getLast_mem hl))]

theorem splitSign_digits (l : List Char) (hall : ∀ c ∈ l, c.isDigit = true) :
    splitSign l = (false, l) := by
  unfold splitSign
  split
  · exact absurd rfl (isDigit_ne_minus _ (hall _ (List.mem_cons_self _ _)))
  · exact absurd rfl (isDigit_ne_plus _ (hall _ (List.mem_cons_self _ _)))
  · rfl

theorem parseLongLong_digits (l : List Char) (hne : l ≠ []) (hall : ∀ c ∈ l, c.isDigit = true)
    (hr : (digitsToNat l : Int) < 9223372036854775808) :
    parseLongLong l = some (digitsToNat l : Int) := by
  unfold parseLongLong
  have hall2 : l.all Char.isDigit = true := by
    rw [List.all_eq_true]; exact hall
  simp only [trim_digits l hne hall, splitSign_digits l hall, hall2]
  simp [hne]
  omega

theorem parseLongLong_minus_digits (l : List Char) (hne : l ≠ [])
    (hall : ∀ c ∈ l, c.isDigit = true)
    (hr : (digitsToNat l : Int) ≤ 9223372036854775808) :
    parseLongLong ('-' :: l) = some (-(digitsToNat l : Int)) := by
  unfold parseLongLong
  have hall2 : l.all Char.isDigit = true := by
    rw [List.all_eq_true]; exact hall
  have htrim : (('-' :: l).dropWhile Char.isWhitespace).rdropWhile Char.isWhitespace
      = '-' :: l := by
    have h1 : ('-' :: l).dropWhile Char.isWhitespace = '-' :: l := by
      simp [List.dropWhile]
    rw [h1, List.rdropWhile_eq_self_iff]
    intro hl
    rw [List.getLast_cons hne]
    simp [isDigit_not_isWhitespace _ (hall _ (List.getLast_mem hne))]
  have hs : splitSign ('-' :: l) = (true, l) := rfl
  simp only [htrim, hs, hall2]
  simp [hne]
  omega

/-- Reading back the decimal text of a C++ `int` gives the same `int`. -/
theorem toInt_number (n : Int) (h : isInt32 n) :
    (QVariant.string (QVariant.int n).toString).toInt = n := by
  unfold isInt32 at h
  simp only [QVariant.toString, QVariant.toInt, qstringNumber]
  have hw : wrapInt32 n = n := by unfold wrapInt32; omega
  by_cases hneg : n < 0
  · simp only [hneg, if_true]
    rw [parseLongLong_minus_digits _ (toDigits_ne_nil _) (toDigits_all_isDigit _)
      (by rw [digitsToNat_toDigits]; omega)]
    rw [digitsToNat_toDigits]
    have : -((n.natAbs : Nat) : Int) = n := by omega
    simp only [this, hw]
  · simp only [hneg, if_false]
    rw [parseLongLong_digits _ (toDigits_ne_nil _) (toDigits_all_isDigit _)
      (by rw [digitsToNat_toDigits]; omega)]
    rw [digitsToNat_toDigits]
    have : ((n.natAbs : Nat) : Int) = n := by omega
    simp only [this, hw]

/-- Reading back the text of a boolean gives the same boolean. -/
theorem toBool_text (b : Bool) : (QVariant.string (QVariant.bool b).toString).toBool = b := by
  cases b <;> decide


/-! ## Auxiliary facts: the key/value file -/

theorem lookup_filter_ne (l : IniFile) (k key : String × String) (h : key ≠ k) :
    List.lookup key (l.filter fun e => decide (e.1 ≠ k)) = List.lookup key l := by
  induction l with
  | nil => rfl
  | cons e l ih =>
    obtain ⟨ek, ev⟩ := e
    by_cases hk : ek = k
    · subst hk
      have hne : (key == ek) = false := by simpa using h
      rw [List.filter_cons_of_neg (by simp), ih, List.lookup_cons, hne]
    · rw [List.filter_cons_of_pos (by simpa using hk), List.lookup_cons, List.lookup_cons, ih]

theorem lookup_setValue (f : IniFile) (g k : String) (v : QVariant) (key : String × String) :
    List.lookup key (IniFile.setValue f g k v)
      = if key = (g, k) then some v.toString else List.lookup key f := by
  unfold IniFile.setValue
  by_cases h : key = (g, k)
  · subst h; simp [List.lookup]
  · have hne : (key == (g, k)) = false := by simpa using h
    simp only [List.lookup, hne, if_neg h]
    exact lookup_filter_ne f (g, k) key h

theorem toString_string (s : String) : (QVariant.string s).toString = s := rfl

theorem openSettings_sync (fs : FileSystem) (path : String) (c : IniFile)
    (h : fs.writable path = true) : (fs.sync path c).openSettings path = c := by
  simp [FileSystem.sync, FileSystem.openSettings, h]

/-! ## Auxiliary facts: the codecs are inverse on declared variants -/

theorem bookmarkOpenMethod_decode_encode (v : OpenDirTargetType) :
    bookmarkOpenMethodFromString (bookmarkOpenMethodToString v) = v := by
  cases v <;> decide

theorem wallpaperMode_decode_encode (n : Int) (h : n ∈ declaredWallpaperModes) :
    wallpaperModeFromString (wallpaperModeToString n) = n := by
  simp only [declaredWallpaperModes, WallpaperMode.toInt, List.mem_cons, List.mem_singleton,
    List.mem_nil_iff, or_false] at h
  rcases h with rfl | rfl | rfl | rfl | rfl | rfl <;> decide

theorem viewMode_decode_encode (v : ViewMode) :
    viewModeFromString (viewModeToString v) = v := by
  cases v <;> decide

theorem sidePaneMode_decode_encode (v : SidePaneMode) :
    sidePaneModeFromString (sidePaneModeToString v) = v := by
  cases v <;> decide

theorem sortOrder_decode_encode (v : SortOrder) :
    sortOrderFromString (sortOrderToString v) = v := by
  cases v <;> decide

theorem sortColumn_decode_encode (v : ColumnId) :
    sortColumnFromString (sortColumnToString v) = v := by
  cases v <;> decide

section Store

variable {QColor QFont : Type}

/-- The members after `loadFile`, field by field, for the file content `f`. -/
theorem loadFrom_settings (ext : External QColor QFont) (f : IniFile)
    (st : State QColor QFont) :
    (loadFrom ext f st).settings =
      { st.settings with
        fallbackIconThemeName_ :=
          if (f.value "System" "FallbackIconThemeName").toString = "" then "elementary"
          else (f.value "System" "FallbackIconThemeName").toString
        suCommand_ := (f.valueD "System" "SuCommand" (.string "gksu %s")).toString
        terminal_ := (f.valueD "System" "Terminal" (.string "xterm")).toString
        archiver_ := (f.valueD "System" "Archiver" (.string "file-roller")).toString
        siUnit_ := (f.valueD "System" "SIUnit" (.bool false)).toBool
        onlyUserTemplates_ := (f.valueD "System" "OnlyUserTemplates" (.bool false)).toBool
        templateTypeOnce_ := (f.valueD "System" "OemplateTypeOnce" (.bool false)).toBool
        templateRunApp_ := (f.valueD "System" "TemplateRunApp" (.bool false)).toBool
        bookmarkOpenMethod_ :=
          bookmarkOpenMethodFromString (f.value "Behavior" "BookmarkOpenMethod").toString
        spatialMode_ := (f.valueD "Behavior" "SpatialMode" (.bool false)).toBool
        dirInfoWrite_ := (f.valueD "Behavior" "DirInfoWrite" (.bool true)).toBool
        singleClick_ := (f.valueD "Behavior" "SingleClick" (.bool false)).toBool
        autoSelectionDelay_ := (f.valueD "Behavior" "AutoSelectionDelay" (.int 600)).toInt
        confirmDelete_ := (f.valueD "Behavior" "ConfirmDelete" (.bool true)).toBool
        noUsbTrash_ := (f.valueD "Behavior" "NoUsbTrash" (.bool false)).toBool
        confirmTrash_ := (f.valueD "Behavior" "ConfirmTrash" (.bool false)).toBool
        quickExec_ := (f.valueD "Behavior" "QuickExec" (.bool true)).toBool
        wallpaperMode_ := wallpaperModeFromString (f.value "Desktop" "WallpaperMode").toString
        wallpaper_ := (f.value "Desktop" "Wallpaper").toString
        desktopBgColor_ :=
          ext.setNamedColor (f.valueD "Desktop" "BgColor" (.string "#4e7fb4")).toString
        desktopFgColor_ :=
          ext.setNamedColor (f.valueD "Desktop" "FgColor" (.string "#ffffff")).toString
        desktopShadowColor_ :=
          ext.setNamedColor (f.valueD "Desktop" "ShadowColor" (.string "#000000")).toString
        desktopFont_ :=
          if f.contains "Desktop" "Font" = true then
            ext.fontFromString st.settings.desktopFont_ (f.value "Desktop" "Font").toString
          else ext.applicationFont
        desktopShowHidden_ := (f.valueD "Desktop" "ShowHidden" (.bool false)).toBool
        desktopSortOrder_ := sortOrderFromString (f.value "Desktop" "SortOrder").toString
        desktopSortColumn_ := sortColumnFromString (f.value "Desktop" "SortColumn").toString
        mountOnStartup_ := (f.valueD "Volume" "MountOnStartup" (.bool true)).toBool
        mountRemovable_ := (f.valueD "Volume" "MountRemovable" (.bool true)).toBool
        autoRun_ := (f.valueD "Volume" "AutoRun" (.bool true)).toBool
        closeOnUnmount_ := (f.valueD "Volume" "CloseOnUnmount" (.bool true)).toBool
        showThumbnails_ := (f.valueD "Thumbnail" "ShowThumbnails" (.bool true)).toBool
        maxThumbnailFileSize_ :=
          (f.valueD "Thumbnail" "MaxThumbnailFileSize" (.int 4096)).toInt
        thumbnailLocalFilesOnly_ :=
          (f.valueD "Thumbnail" "ThumbnailLocalFilesOnly" (.bool true)).toBool
        viewMode_ :=
          viewModeFromString (f.valueD "FolderView" "Mode" (.int ext.iconModeValue)).toString
        showHidden_ := (f.valueD "FolderView" "ShowHidden" (.bool false)).toBool
        sortOrder_ := sortOrderFromString (f.value "FolderView" "SortOrder").toString
        sortColumn_ := sortColumnFromString (f.value "FolderView" "SortColumn").toString
        sortFolderFirst_ := (f.valueD "FolderView" "SortFolderFirst" (.bool true)).toBool
        showFilter_ := (f.valueD "FolderView" "ShowFilter" (.bool false)).toBool
        backupAsHidden_ := (f.valueD "FolderView" "BackupAsHidden" (.bool false)).toBool
        showFullNames_ := (f.valueD "FolderView" "ShowFullNames" (.bool false)).toBool
        shadowHidden_ := (f.valueD "FolderView" "ShadowHidden" (.bool false)).toBool
        bigIconSize_ := (f.valueD "FolderView" "BigIconSize" (.int 36)).toInt
        smallIconSize_ := (f.valueD "FolderView" "SmallIconSize" (.int 16)).toInt
        sidePaneIconSize_ := (f.valueD "FolderView" "SidePaneIconSize" (.int 12)).toInt
        thumbnailIconSize_ := (f.valueD "FolderView" "ThumbnailIconSize" (.int 128)).toInt
        fixedWindowWidth_ := (f.valueD "Window" "FixedWidth" (.int 640)).toInt
        fixedWindowHeight_ := (f.valueD "Window" "FixedHeight" (.int 480)).toInt
        lastWindowWidth_ := (f.valueD "Window" "LastWindowWidth" (.int 640)).toInt
        lastWindowHeight_ := (f.valueD "Window" "LastWindowHeight" (.int 480)).toInt
        lastWindowMaximized_ := (f.valueD "Window" "LastWindowMaximized" (.bool false)).toBool
        rememberWindowSize_ := (f.valueD "Window" "RememberWindowSize" (.bool true)).toBool
        alwaysShowTabs_ := (f.valueD "Window" "AlwaysShowTabs" (.bool false)).toBool
        showTabClose_ := (f.valueD "Window" "ShowTabClose" (.bool true)).toBool
        splitterPos_ := (f.valueD "Window" "SplitterPos" (.int 150)).toInt
        sidePaneMode_ := sidePaneModeFromString (f.value "Window" "SidePaneMode").toString } := by
  cases st with
  | mk s c =>
    cases s
    rfl

end Store


/-! ## Enum codecs: encode/decode laws -/

/-- C1: for each of the six enum codecs and every declared variant `v`,
decoding the token that encodes `v` gives `v` back; hence, within one enum,
distinct variants have distinct tokens (each encoder is injective on the
declared variants). -/
theorem enum_decode_encode :
    (∀ v, bookmarkOpenMethodFromString (bookmarkOpenMethodToString v) = v) ∧
    (∀ v : WallpaperMode, wallpaperModeFromString (wallpaperModeToString v.toInt) = v.toInt) ∧
    (∀ v, viewModeFromString (viewModeToString v) = v) ∧
    (∀ v, sidePaneModeFromString (sidePaneModeToString v) = v) ∧
    (∀ v, sortOrderFromString (sortOrderToString v) = v) ∧
    (∀ v, sortColumnFromString (sortColumnToString v) = v) ∧
    Function.Injective bookmarkOpenMethodToString ∧
    Function.Injective (fun v : WallpaperMode => wallpaperModeToString v.toInt) ∧
    Function.Injective viewModeToString ∧
    Function.Injective sidePaneModeToString ∧
    Function.Injective sortOrderToString ∧
    Function.Injective sortColumnToString := by
  refine ⟨?_, ?_, ?_, ?_, ?_, ?_, ?_, ?_, ?_, ?_, ?_, ?_⟩
  · intro v; cases v <;> decide
  · intro v; cases v <;> decide
  · intro v; cases v <;> decide
  · intro v; cases v <;> decide
  · intro v; cases v <;> decide
  · intro v; cases v <;> decide
  · intro a b; cases a <;> cases b <;> decide
  · intro a b; cases a <;> cases b <;> decide
  · intro a b; cases a <;> cases b <;> decide
  · intro a b; cases a <;> cases b <;> decide
  · intro a b; cases a <;> cases b <;> decide
  · intro a b; cases a <;> cases b <;> decide

/-- C2: every decoder is total, and a string that is not exactly one of the
enum's tokens (the empty string included) decodes to the designated default:
`current_tab`, `none`, `icon`, `places`, `ascending`, `name`. -/
theorem enum_decode_default (s : String) :
    (s ∉ bookmarkOpenMethodTokens → bookmarkOpenMethodFromString s = OpenInCurrentTab) ∧
    (s ∉ wallpaperModeTokens →
      wallpaperModeFromString s = WallpaperMode.WallpaperNone.toInt) ∧
    (s ∉ viewModeTokens → viewModeFromString s = IconMode) ∧
    (s ∉ sidePaneModeTokens → sidePaneModeFromString s = ModePlaces) ∧
    (s ∉ sortOrderTokens → sortOrderFromString s = AscendingOrder) ∧
    (s ∉ sortColumnTokens → sortColumnFromString s = ColumnFileName) := by
  refine ⟨?_, ?_, ?_, ?_, ?_, ?_⟩
  · intro h
    simp [bookmarkOpenMethodTokens, bookmarkOpenMethodToString] at h
    simp [bookmarkOpenMethodFromString, h]
  · intro h
    simp [wallpaperModeTokens, declaredWallpaperModes, wallpaperModeToString,
      WallpaperMode.toInt] at h
    simp [wallpaperModeFromString, h]
  · intro h
    simp [viewModeTokens, viewModeToString] at h
    simp [viewModeFromString, h]
  · intro h
    simp [sidePaneModeTokens, sidePaneModeToString] at h
    simp [sidePaneModeFromString, h]
  · intro h
    simp [sortOrderTokens, sortOrderToString] at h
    simp [sortOrderFromString, h]
  · intro h
    simp [sortColumnTokens, sortColumnToString] at h
    simp [sortColumnFromString, h]

/-- The decode-default law at the strings `bogus`, `Thumbnail` and at the empty string. -/
theorem enum_decode_default_witness :
    sortColumnFromString "bogus" = ColumnFileName ∧
    viewModeFromString "Thumbnail" = IconMode ∧
    bookmarkOpenMethodFromString "" = OpenInCurrentTab ∧
    wallpaperModeFromString "" = 0 ∧
    sidePaneModeFromString "Places" = ModePlaces ∧
    sortOrderFromString "DESCENDING" = AscendingOrder :=
  ⟨(enum_decode_default "bogus").2.2.2.2.2 (by decide),
   (enum_decode_default "Thumbnail").2.2.1 (by decide),
   (enum_decode_default "").1 (by decide),
   (enum_decode_default "").2.1 (by decide),
   (enum_decode_default "Places").2.2.2.1 (by decide),
   (enum_decode_default "DESCENDING").2.2.2.2.1 (by decide)⟩

section Store
variable {QColor QFont : Type}

theorem value_saveTo_themeName (ext : External QColor QFont) (f : IniFile)
    (s : Settings QColor QFont) :
    ((saveTo ext f s).value "System" "FallbackIconThemeName").toString
      = s.fallbackIconThemeName_ := by
  simp only [saveTo, IniFile.value, lookup_setValue, toString_string, Prod.mk.injEq,
    String.reduceEq, and_false, and_true, and_self, if_true, if_false]

theorem value_saveTo_wallpaperMode (ext : External QColor QFont) (f : IniFile)
    (s : Settings QColor QFont) :
    ((saveTo ext f s).value "Desktop" "WallpaperMode").toString
      = wallpaperModeToString s.wallpaperMode_ := by
  simp only [saveTo, IniFile.value, lookup_setValue, toString_string, Prod.mk.injEq,
    String.reduceEq, and_false, and_true, and_self, if_true, if_false]

theorem contains_saveTo_font (ext : External QColor QFont) (f : IniFile)
    (s : Settings QColor QFont) :
    (saveTo ext f s).contains "Desktop" "Font" = true := by
  simp only [saveTo, IniFile.contains, lookup_setValue, toString_string, Prod.mk.injEq,
    String.reduceEq, and_false, and_true, and_self, if_true, if_false, Option.isSome_some]

/-- Loading what `saveFile` wrote from a record with a non-empty theme name, a
declared wallpaper mode and `int` members in range, field by field. -/
theorem loadFrom_saveTo_settings (ext : External QColor QFont) (f : IniFile)
    (s : Settings QColor QFont) (st0 : State QColor QFont)
    (hname : s.fallbackIconThemeName_ ≠ "")
    (hmode : s.wallpaperMode_ ∈ declaredWallpaperModes)
    (hint : s.intsInRange) :
    (loadFrom ext (saveTo ext f s) st0).settings =
      { s with
        profileName_ := st0.settings.profileName_
        supportTrash_ := st0.settings.supportTrash_
        useFallbackIconTheme_ := st0.settings.useFallbackIconTheme_
        desktopBgColor_ := ext.setNamedColor (ext.colorName s.desktopBgColor_)
        desktopFgColor_ := ext.setNamedColor (ext.colorName s.desktopFgColor_)
        desktopShadowColor_ := ext.setNamedColor (ext.colorName s.desktopShadowColor_)
        desktopFont_ :=
          ext.fontFromString st0.settings.desktopFont_ (ext.fontToString s.desktopFont_) } := by
  obtain ⟨h1, h2, h3, h4, h5, h6, h7, h8, h9, h10, h11⟩ := hint
  simp only [loadFrom_settings]
  rw [value_saveTo_themeName, if_neg hname, contains_saveTo_font, if_pos rfl]
  simp only [saveTo,
    Settings.maxThumbnailFileSize, Settings.thumbnailLocalFilesOnly,
    IniFile.value, IniFile.valueD, IniFile.contains, lookup_setValue, toString_string,
    Prod.mk.injEq, String.reduceEq, and_false, and_true, and_self, if_true, if_false, reduceIte,
    Option.isSome_some, toBool_text, toInt_number _ h1, toInt_number _ h2, toInt_number _ h3,
    toInt_number _ h4, toInt_number _ h5, toInt_number _ h6, toInt_number _ h7,
    toInt_number _ h8, toInt_number _ h9, toInt_number _ h10, toInt_number _ h11,
    bookmarkOpenMethod_decode_encode, wallpaperMode_decode_encode _ hmode,
    viewMode_decode_encode, sidePaneMode_decode_encode, sortOrder_decode_encode,
    sortColumn_decode_encode]

end Store

/-! ## Saving and loading again -/

/-- C3, as stated, fails: a record does not always survive `saveFile` followed
by `loadFile`. The freshly constructed record has an empty fallback icon theme
name and comes back with `elementary`; a record whose integer wallpaper mode is
`7` comes back with mode `0`. -/
theorem save_load_roundtrip_counterexample :
    (freshWorld.st.settings.fallbackIconThemeName_ = "" ∧
      (loadFile textExternal "/cfg/filer/default/settings.conf"
        (saveFile textExternal "/cfg/filer/default/settings.conf"
          freshWorld).2).2.st.settings.fallbackIconThemeName_ = "elementary") ∧
    (oddWallpaperWorld.st.settings.wallpaperMode_ = 7 ∧
      (loadFile textExternal "/cfg/filer/default/settings.conf"
        (saveFile textExternal "/cfg/filer/default/settings.conf"
          oddWallpaperWorld).2).2.st.settings.wallpaperMode_ = 0) := by
  refine ⟨⟨rfl, ?_⟩, ⟨rfl, ?_⟩⟩
  · simp only [loadFile, saveFile,
      openSettings_sync _ _ _ (rfl : freshWorld.fs.writable _ = true), loadFrom_settings]
    rw [value_saveTo_themeName]
    rfl
  · simp only [loadFile, saveFile,
      openSettings_sync _ _ _ (rfl : oddWallpaperWorld.fs.writable _ = true), loadFrom_settings]
    rw [value_saveTo_wallpaperMode]
    rfl

section Store
variable {QColor QFont : Type}

/-- C3 (amended): for every record whose fallback icon theme name is not
empty, whose wallpaper mode is one of the six declared modes and whose other
integer members hold C++ `int` values, `saveFile(path)` to a writable path
followed by `loadFile(path)`, into any settings object, gives a record in
which every persisted string, boolean, integer and enum member equals its
value in the saved record; each colour is what `setNamedColor` makes of the
saved colour's `name()`, and the font is what `fromString` makes of the saved
font's `toString()`. The members that are not persisted (profile name, trash
support, use of the fallback icon theme) are those of the loading object. -/
theorem save_load_roundtrip (ext : External QColor QFont) (path : String)
    (w : World QColor QFont) (st0 : State QColor QFont)
    (hw : w.fs.writable path = true)
    (hname : w.st.settings.fallbackIconThemeName_ ≠ "")
    (hmode : w.st.settings.wallpaperMode_ ∈ declaredWallpaperModes)
    (hint : w.st.settings.intsInRange) :
    (loadFile ext path { st := st0, fs := (saveFile ext path w).2.fs }).2.st.settings =
      { w.st.settings with
        profileName_ := st0.settings.profileName_
        supportTrash_ := st0.settings.supportTrash_
        useFallbackIconTheme_ := st0.settings.useFallbackIconTheme_
        desktopBgColor_ := ext.setNamedColor (ext.colorName w.st.settings.desktopBgColor_)
        desktopFgColor_ := ext.setNamedColor (ext.colorName w.st.settings.desktopFgColor_)
        desktopShadowColor_ :=
          ext.setNamedColor (ext.colorName w.st.settings.desktopShadowColor_)
        desktopFont_ :=
          ext.fontFromString st0.settings.desktopFont_
            (ext.fontToString w.st.settings.desktopFont_) } := by
  simp only [loadFile, saveFile, openSettings_sync _ _ _ hw]
  exact loadFrom_saveTo_settings ext _ _ st0 hname hmode hint

end Store

/-- The round trip at a concrete record: the fresh settings with the icon theme
`Adwaita`, saved and loaded again into a freshly constructed object. -/
theorem save_load_roundtrip_witness :
    (loadFile textExternal "/cfg/filer/default/settings.conf"
      { st := freshWorld.st,
        fs := (saveFile textExternal "/cfg/filer/default/settings.conf"
          themedWorld).2.fs }).2.st.settings =
      { themedWorld.st.settings with
        profileName_ := freshWorld.st.settings.profileName_
        supportTrash_ := freshWorld.st.settings.supportTrash_
        useFallbackIconTheme_ := freshWorld.st.settings.useFallbackIconTheme_
        desktopBgColor_ :=
          textExternal.setNamedColor
            (textExternal.colorName themedWorld.st.settings.desktopBgColor_)
        desktopFgColor_ :=
          textExternal.setNamedColor
            (textExternal.colorName themedWorld.st.settings.desktopFgColor_)
        desktopShadowColor_ :=
          textExternal.setNamedColor
            (textExternal.colorName themedWorld.st.settings.desktopShadowColor_)
        desktopFont_ :=
          textExternal.fontFromString freshWorld.st.settings.desktopFont_
            (textExternal.fontToString themedWorld.st.settings.desktopFont_) } :=
  save_load_roundtrip textExternal "/cfg/filer/default/settings.conf" themedWorld
    freshWorld.st rfl (by decide) (by decide) (by decide)


/-! ## Missing keys -/

theorem qstringNumber_data_head (n : Int) :
    ∃ c cs, (qstringNumber n).data = c :: cs ∧ (c = '-' ∨ c.isDigit = true) := by
  unfold qstringNumber
  split
  · exact ⟨'-', _, rfl, Or.inl rfl⟩
  · cases hd : Nat.toDigits 10 n.natAbs with
    | nil => exact absurd hd (toDigits_ne_nil _)
    | cons c cs =>
      refine ⟨c, cs, rfl, Or.inr ?_⟩
      exact toDigits_all_isDigit n.natAbs c (by rw [hd]; exact List.mem_cons_self _ _)

/-- The decimal text of the `IconMode` enumerator is no view-mode token other
than by falling through to the default. -/
theorem viewModeFromString_number (n : Int) :
    viewModeFromString (qstringNumber n) = IconMode := by
  obtain ⟨c, cs, hdata, hc⟩ := qstringNumber_data_head n
  have hne : ∀ t : String, (∃ d ds, t.data = d :: ds ∧ d ≠ '-' ∧ d.isDigit = false) →
      qstringNumber n ≠ t := by
    rintro t ⟨d, ds, ht, hd1, hd2⟩ heq
    rw [heq, ht] at hdata
    injection hdata with h1 _
    subst h1
    rcases hc with h | h
    · exact hd1 h
    · rw [h] at hd2; exact Bool.noConfusion hd2
  have h2 := hne "compact" ⟨'c', _, rfl, by decide, by decide⟩
  have h3 := hne "detailed" ⟨'d', _, rfl, by decide, by decide⟩
  have h4 := hne "thumbnail" ⟨'t', _, rfl, by decide, by decide⟩
  simp only [viewModeFromString, h2, h3, h4, if_false, ite_self]

theorem bookmarkOpenMethodFromString_empty :
    bookmarkOpenMethodFromString "" = OpenInCurrentTab := by decide

theorem wallpaperModeFromString_empty : wallpaperModeFromString "" = 0 := by decide

theorem sortOrderFromString_empty : sortOrderFromString "" = AscendingOrder := by decide

theorem sortColumnFromString_empty : sortColumnFromString "" = ColumnFileName := by decide

theorem sidePaneModeFromString_empty : sidePaneModeFromString "" = ModePlaces := by decide

section Store
variable {QColor QFont : Type}

/-- C4 (amended): when `loadFile` reads a file in which a section is empty or
absent, every member of that section takes the default that `loadFile` itself
supplies for its key. For the booleans the constructor initialises, the
auto-selection delay (600), the thumbnail icon size (128), the fixed and last
window sizes, the wallpaper and every enum member, that is the value the
constructor gives (written `= (Settings.ctor ..).member` below). It is not for
the fallback icon theme name (`elementary`), the su, terminal and archiver
commands (`gksu %s`, `xterm`, `file-roller`), the three desktop colours (those
named `#4e7fb4`, `#ffffff`, `#000000`), the desktop font (the application font)
and the big, small and side-pane icon sizes (36, 16, 12); the members the
constructor leaves alone become `false`, and the thumbnail limits 4096 and
`true`. Nothing is said here about the splitter position. -/
theorem load_missing_section_defaults (ext : External QColor QFont) (path : String)
    (w : World QColor QFont) (supportTrash : Bool) (themeName : String)
    (raw : Settings QColor QFont) :
    ((∀ key, List.lookup ("System", key) (w.fs.openSettings path) = none) →
        (loadFile ext path w).2.st.settings.fallbackIconThemeName_ = "elementary" ∧
        (loadFile ext path w).2.st.settings.suCommand_ = "gksu %s" ∧
        (loadFile ext path w).2.st.settings.terminal_ = "xterm" ∧
        (loadFile ext path w).2.st.settings.archiver_ = "file-roller" ∧
        (loadFile ext path w).2.st.settings.siUnit_ =
          (Settings.ctor ext supportTrash themeName raw).siUnit_ ∧
        (loadFile ext path w).2.st.settings.onlyUserTemplates_ = false ∧
        (loadFile ext path w).2.st.settings.templateTypeOnce_ = false ∧
        (loadFile ext path w).2.st.settings.templateRunApp_ = false) ∧
    ((∀ key, List.lookup ("Behavior", key) (w.fs.openSettings path) = none) →
        (loadFile ext path w).2.st.settings.bookmarkOpenMethod_ =
          (Settings.ctor ext supportTrash themeName raw).bookmarkOpenMethod_ ∧
        (loadFile ext path w).2.st.settings.spatialMode_ =
          (Settings.ctor ext supportTrash themeName raw).spatialMode_ ∧
        (loadFile ext path w).2.st.settings.dirInfoWrite_ =
          (Settings.ctor ext supportTrash themeName raw).dirInfoWrite_ ∧
        (loadFile ext path w).2.st.settings.singleClick_ =
          (Settings.ctor ext supportTrash themeName raw).singleClick_ ∧
        (loadFile ext path w).2.st.settings.autoSelectionDelay_ =
          (Settings.ctor ext supportTrash themeName raw).autoSelectionDelay_ ∧
        (loadFile ext path w).2.st.settings.confirmDelete_ =
          (Settings.ctor ext supportTrash themeName raw).confirmDelete_ ∧
        (loadFile ext path w).2.st.settings.noUsbTrash_ =
          (Settings.ctor ext supportTrash themeName raw).noUsbTrash_ ∧
        (loadFile ext path w).2.st.settings.confirmTrash_ =
          (Settings.ctor ext supportTrash themeName raw).confirmTrash_ ∧
        (loadFile ext path w).2.st.settings.quickExec_ =
          (Settings.ctor ext supportTrash themeName raw).quickExec_) ∧
    ((∀ key, List.lookup ("Desktop", key) (w.fs.openSettings path) = none) →
        (loadFile ext path w).2.st.settings.wallpaperMode_ =
          (Settings.ctor ext supportTrash themeName raw).wallpaperMode_ ∧
        (loadFile ext path w).2.st.settings.wallpaper_ =
          (Settings.ctor ext supportTrash themeName raw).wallpaper_ ∧
        (loadFile ext path w).2.st.settings.desktopBgColor_ = ext.setNamedColor "#4e7fb4" ∧
        (loadFile ext path w).2.st.settings.desktopFgColor_ = ext.setNamedColor "#ffffff" ∧
        (loadFile ext path w).2.st.settings.desktopShadowColor_ = ext.setNamedColor "#000000" ∧
        (loadFile ext path w).2.st.settings.desktopFont_ = ext.applicationFont ∧
        (loadFile ext path w).2.st.settings.desktopShowHidden_ =
          (Settings.ctor ext supportTrash themeName raw).desktopShowHidden_ ∧
        (loadFile ext path w).2.st.settings.desktopSortOrder_ =
          (Settings.ctor ext supportTrash themeName raw).desktopSortOrder_ ∧
        (loadFile ext path w).2.st.settings.desktopSortColumn_ =
          (Settings.ctor ext supportTrash themeName raw).desktopSortColumn_) ∧
    ((∀ key, List.lookup ("Volume", key) (w.fs.openSettings path) = none) →
        (loadFile ext path w).2.st.settings.mountOnStartup_ =
          (Settings.ctor ext supportTrash themeName raw).mountOnStartup_ ∧
        (loadFile ext path w).2.st.settings.mountRemovable_ =
          (Settings.ctor ext supportTrash themeName raw).mountRemovable_ ∧
        (loadFile ext path w).2.st.settings.autoRun_ =
          (Settings.ctor ext supportTrash themeName raw).autoRun_ ∧
        (loadFile ext path w).2.st.settings.closeOnUnmount_ =
          (Settings.ctor ext supportTrash themeName raw).closeOnUnmount_) ∧
    ((∀ key, List.lookup ("Thumbnail", key) (w.fs.openSettings path) = none) →
        (loadFile ext path w).2.st.settings.showThumbnails_ =
          (Settings.ctor ext supportTrash themeName raw).showThumbnails_ ∧
        (loadFile ext path w).2.st.settings.maxThumbnailFileSize_ = 4096 ∧
        (loadFile ext path w).2.st.settings.thumbnailLocalFilesOnly_ = true) ∧
    ((∀ key, List.lookup ("FolderView", key) (w.fs.openSettings path) = none) →
        (loadFile ext path w).2.st.settings.viewMode_ =
          (Settings.ctor ext supportTrash themeName raw).viewMode_ ∧
        (loadFile ext path w).2.st.settings.showHidden_ =
          (Settings.ctor ext supportTrash themeName raw).showHidden_ ∧
        (loadFile ext path w).2.st.settings.sortOrder_ =
          (Settings.ctor ext supportTrash themeName raw).sortOrder_ ∧
        (loadFile ext path w).2.st.settings.sortColumn_ =
          (Settings.ctor ext supportTrash themeName raw).sortColumn_ ∧
        (loadFile ext path w).2.st.settings.sortFolderFirst_ =
          (Settings.ctor ext supportTrash themeName raw).sortFolderFirst_ ∧
        (loadFile ext path w).2.st.settings.showFilter_ =
          (Settings.ctor ext supportTrash themeName raw).showFilter_ ∧
        (loadFile ext path w).2.st.settings.backupAsHidden_ = false ∧
        (loadFile ext path w).2.st.settings.showFullNames_ = false ∧
        (loadFile ext path w).2.st.settings.shadowHidden_ = false ∧
        (loadFile ext path w).2.st.settings.bigIconSize_ = 36 ∧
        (loadFile ext path w).2.st.settings.smallIconSize_ = 16 ∧
        (loadFile ext path w).2.st.settings.sidePaneIconSize_ = 12 ∧
        (loadFile ext path w).2.st.settings.thumbnailIconSize_ =
          (Settings.ctor ext supportTrash themeName raw).thumbnailIconSize_) ∧
    ((∀ key, List.lookup ("Window", key) (w.fs.openSettings path) = none) →
        (loadFile ext path w).2.st.settings.fixedWindowWidth_ =
          (Settings.ctor ext supportTrash themeName raw).fixedWindowWidth_ ∧
        (loadFile ext path w).2.st.settings.fixedWindowHeight_ =
          (Settings.ctor ext supportTrash themeName raw).fixedWindowHeight_ ∧
        (loadFile ext path w).2.st.settings.lastWindowWidth_ =
          (Settings.ctor ext supportTrash themeName raw).lastWindowWidth_ ∧
        (loadFile ext path w).2.st.settings.lastWindowHeight_ =
          (Settings.ctor ext supportTrash themeName raw).lastWindowHeight_ ∧
        (loadFile ext path w).2.st.settings.lastWindowMaximized_ =
          (Settings.ctor ext supportTrash themeName raw).lastWindowMaximized_ ∧
        (loadFile ext path w).2.st.settings.rememberWindowSize_ =
          (Settings.ctor ext supportTrash themeName raw).rememberWindowSize_ ∧
        (loadFile ext path w).2.st.settings.alwaysShowTabs_ =
          (Settings.ctor ext supportTrash themeName raw).alwaysShowTabs_ ∧
        (loadFile ext path w).2.st.settings.showTabClose_ =
          (Settings.ctor ext supportTrash themeName raw).showTabClose_ ∧
        (loadFile ext path w).2.st.settings.sidePaneMode_ =
          (Settings.ctor ext supportTrash themeName raw).sidePaneMode_) := by
  simp only [loadFile, loadFrom_settings]
  refine ⟨?_, ?_, ?_, ?_, ?_, ?_, ?_⟩ <;> intro h <;>
    simp only [IniFile.value, IniFile.valueD, IniFile.contains, h, Settings.ctor,
      QVariant.toString, QVariant.toBool, QVariant.toInt, Option.isSome_none, if_true,
      Bool.false_eq_true, if_false, viewModeFromString_number, and_true,
      bookmarkOpenMethodFromString_empty, wallpaperModeFromString_empty,
      sortOrderFromString_empty, sortColumnFromString_empty, sidePaneModeFromString_empty,
      and_self]

end Store

/-- C4, as stated, fails: a freshly constructed settings object that loads from
a path without a file ends with icon sizes 36, 16 and 12, splitter position
150 and terminal `xterm`, where the constructor had set 48, 24, 16, 120 and
the empty string. -/
theorem load_missing_section_defaults_counterexample :
    freshWorld.fs.openSettings "/cfg/filer/default/settings.conf" = [] ∧
    freshWorld.st.settings = Settings.ctor textExternal true "" rawSettings ∧
    ((loadFile textExternal "/cfg/filer/default/settings.conf"
          freshWorld).2.st.settings.bigIconSize_ = 36 ∧
      (Settings.ctor textExternal true "" rawSettings).bigIconSize_ = 48) ∧
    ((loadFile textExternal "/cfg/filer/default/settings.conf"
          freshWorld).2.st.settings.smallIconSize_ = 16 ∧
      (Settings.ctor textExternal true "" rawSettings).smallIconSize_ = 24) ∧
    ((loadFile textExternal "/cfg/filer/default/settings.conf"
          freshWorld).2.st.settings.sidePaneIconSize_ = 12 ∧
      (Settings.ctor textExternal true "" rawSettings).sidePaneIconSize_ = 16) ∧
    ((loadFile textExternal "/cfg/filer/default/settings.conf"
          freshWorld).2.st.settings.splitterPos_ = 150 ∧
      (Settings.ctor textExternal true "" rawSettings).splitterPos_ = 120) ∧
    ((loadFile textExternal "/cfg/filer/default/settings.conf"
          freshWorld).2.st.settings.terminal_ = "xterm" ∧
      (Settings.ctor textExternal true "" rawSettings).terminal_ = "") := by
  refine ⟨rfl, rfl, ⟨?_, rfl⟩, ⟨?_, rfl⟩, ⟨?_, rfl⟩, ⟨?_, rfl⟩, ⟨?_, rfl⟩⟩ <;>
    simp only [loadFile, loadFrom_settings] <;> rfl

/-- Missing-key defaulting at a file that holds only `Mode=thumbnail` in group
`FolderView`: the members of the absent sections `Behavior` and `Window`. -/
theorem load_missing_section_defaults_witness :
    (loadFile textExternal "/cfg/filer/default/settings.conf"
        thumbnailWorld).2.st.settings.singleClick_ = false ∧
    (loadFile textExternal "/cfg/filer/default/settings.conf"
        thumbnailWorld).2.st.settings.autoSelectionDelay_ = 600 ∧
    (loadFile textExternal "/cfg/filer/default/settings.conf"
        thumbnailWorld).2.st.settings.confirmDelete_ = true ∧
    (loadFile textExternal "/cfg/filer/default/settings.conf"
        thumbnailWorld).2.st.settings.fixedWindowWidth_ = 640 :=
  have h := load_missing_section_defaults textExternal "/cfg/filer/default/settings.conf"
    thumbnailWorld true "" rawSettings
  have hb := h.2.1 (fun _ => rfl)
  have hw := h.2.2.2.2.2.2 (fun _ => rfl)
  ⟨hb.2.2.2.1, hb.2.2.2.2.1, hb.2.2.2.2.2.1, hw.1⟩


/-! ## The path resolver -/

theorem fallbackSearch_eq_find (fs : FileSystem) (profile : String) (dirs : List String)
    (dirName : String) :
    fallbackSearch fs profile dirs dirName =
      match dirs.find? (fun d => fs.dirExists (d ++ "/filer/" ++ profile)) with
      | some d => d ++ "/filer/" ++ profile
      | none => dirName := by
  induction dirs with
  | nil => rfl
  | cons d rest ih =>
    by_cases h : fs.dirExists (d ++ "/filer/" ++ profile) = true
    · simp [fallbackSearch, List.find?, h]
    · simp only [Bool.not_eq_true] at h
      simp [fallbackSearch, List.find?, h, ih]

theorem profileDir_user (env : Env) (fs : FileSystem) (profile : String) :
    profileDir env fs profile false = userProfileDir env profile := by
  unfold profileDir userProfileDir configRoot
  cases hx : env.xdgConfigHome with
  | none => simp
  | some x => by_cases h : x = "" <;> simp [h]

theorem profileDir_search (env : Env) (fs : FileSystem) (profile : String) :
    profileDir env fs profile true =
      if fs.dirExists (userProfileDir env profile) = true then userProfileDir env profile
      else fallbackSearch fs profile env.systemConfigDirs (userProfileDir env profile) := by
  unfold profileDir userProfileDir configRoot
  cases hx : env.xdgConfigHome with
  | none =>
    by_cases hd : fs.dirExists (env.homePath ++ "/.config" ++ "/filer/" ++ profile) = true
    · simp [hd]
    · simp only [Bool.not_eq_true] at hd
      simp [hd]
  | some x =>
    by_cases h : x = ""
    · by_cases hd : fs.dirExists (env.homePath ++ "/.config" ++ "/filer/" ++ profile) = true
      · simp [h, hd]
      · simp only [Bool.not_eq_true] at hd
        simp [h, hd]
    · by_cases hd : fs.dirExists (x ++ "/filer/" ++ profile) = true
      · simp [h, hd]
      · simp only [Bool.not_eq_true] at hd
        simp [h, hd]

/-- C5: with `useFallback = false`, `profileDir` returns the user-specific
directory `U = <root>/filer/<profile>` whether or not it exists; with
`useFallback = true` it returns `U` when `U` exists, otherwise
`D/filer/<profile>` for the first `D` of the system config directory list for
which that directory exists, and `U` when there is no such `D`. -/
theorem profileDir_fallback_search (env : Env) (fs : FileSystem) (profile : String) :
    profileDir env fs profile false = userProfileDir env profile ∧
    profileDir env fs profile true =
      if fs.dirExists (userProfileDir env profile) = true then userProfileDir env profile
      else
        match env.systemConfigDirs.find? (fun d => fs.dirExists (d ++ "/filer/" ++ profile)) with
        | some d => d ++ "/filer/" ++ profile
        | none => userProfileDir env profile := by
  refine ⟨profileDir_user env fs profile, ?_⟩
  rw [profileDir_search, fallbackSearch_eq_find]

section Store
variable {QColor QFont : Type}

/-- C6: the user-specific candidate directory of `profileDir` is
`X/filer/<profile>` when `XDG_CONFIG_HOME` is set to a non-empty `X`, and
`<home>/.config/filer/<profile>` when it is unset or empty; `load` stores the
profile name and reads the file `settings.conf` in the directory that
`profileDir` resolves with the fallback search. -/
theorem profileDir_config_root (ext : External QColor QFont) (env : Env) (profile : String)
    (w : World QColor QFont) :
    (∀ x, env.xdgConfigHome = some x → x ≠ "" →
      profileDir env w.fs profile false = x ++ "/filer/" ++ profile) ∧
    (env.xdgConfigHome = none ∨ env.xdgConfigHome = some "" →
      profileDir env w.fs profile false = env.homePath ++ "/.config" ++ "/filer/" ++ profile) ∧
    load ext env profile w =
      (true,
        { w with
          st := loadFrom ext
            (w.fs.openSettings (profileDir env w.fs profile true ++ "/settings.conf"))
            (w.st.assign fun s => { s with profileName_ := profile }) }) := by
  refine ⟨?_, ?_, rfl⟩
  · intro x hx hne
    simp [profileDir, hx, hne]
  · rintro (h | h) <;> simp [profileDir, h]

theorem saveFile_files_other (ext : External QColor QFont) (filePath : String)
    (w : World QColor QFont) (path : String) (h : path ≠ filePath) :
    (saveFile ext filePath w).2.fs.files path = w.fs.files path := by
  simp only [saveFile, FileSystem.sync]
  by_cases hw : w.fs.writable filePath = true
  · simp only [hw, if_true, if_neg h]
  · simp only [hw, if_false, Bool.false_eq_true]

theorem saveFile_files_target (ext : External QColor QFont) (filePath : String)
    (w : World QColor QFont) (hw : w.fs.writable filePath = true) :
    (saveFile ext filePath w).2.fs.files filePath =
      some (saveTo ext (w.fs.openSettings filePath) w.st.settings) := by
  simp only [saveFile, FileSystem.sync, hw, if_true]

/-- C7: after `load(p)`, `save(q)` writes the file `settings.conf` in the
user-specific directory of profile `p` when `q` is empty and of profile `q`
otherwise, resolved without the fallback search; the settings object, its
profile name `p` included, is left as it was, no other file changes, and when
the target can be written it holds the saved content. -/
theorem save_target (ext : External QColor QFont) (env : Env) (p q : String)
    (w : World QColor QFont) :
    save ext env q (load ext env p w).2 =
      saveFile ext (userProfileDir env (if q = "" then p else q) ++ "/settings.conf")
        (load ext env p w).2 ∧
    (save ext env q (load ext env p w).2).2.st = (load ext env p w).2.st ∧
    (save ext env q (load ext env p w).2).2.st.settings.profileName_ = p ∧
    (∀ path, path ≠ userProfileDir env (if q = "" then p else q) ++ "/settings.conf" →
      (save ext env q (load ext env p w).2).2.fs.files path = w.fs.files path) ∧
    (w.fs.writable (userProfileDir env (if q = "" then p else q) ++ "/settings.conf") = true →
      (save ext env q (load ext env p w).2).2.fs.files
          (userProfileDir env (if q = "" then p else q) ++ "/settings.conf") =
        some (saveTo ext
          (w.fs.openSettings (userProfileDir env (if q = "" then p else q) ++ "/settings.conf"))
          (load ext env p w).2.st.settings)) := by
  have hname : (load ext env p w).2.st.settings.profileName_ = p := by
    simp only [load, loadFile, loadFrom_settings, State.assign]
  have hfs : (load ext env p w).2.fs = w.fs := rfl
  have hsave : save ext env q (load ext env p w).2 =
      saveFile ext (userProfileDir env (if q = "" then p else q) ++ "/settings.conf")
        (load ext env p w).2 := by
    simp only [save, hname, profileDir_user]
  refine ⟨hsave, ?_, ?_, ?_, ?_⟩
  · rw [hsave]; rfl
  · rw [hsave]; exact hname
  · intro path hpath
    rw [hsave]
    exact saveFile_files_other ext _ _ path hpath
  · intro hw
    rw [hsave]
    exact saveFile_files_target ext _ _ hw

theorem wallpaperModeFromString_declared (str : String) :
    wallpaperModeFromString str ∈ declaredWallpaperModes := by
  unfold wallpaperModeFromString
  repeat' split
  all_goals decide

/-- C9: whatever the file holds, after `loadFile` each of the eight
enum-valued members holds a declared variant of its enum; the integer
wallpaper mode is one of the six declared wallpaper modes. -/
theorem load_enum_validity (ext : External QColor QFont) (path : String)
    (w : World QColor QFont) :
    (loadFile ext path w).2.st.settings.bookmarkOpenMethod_ ∈
      [OpenInCurrentTab, OpenInNewTab, OpenInNewWindow, OpenInLastActiveWindow] ∧
    (loadFile ext path w).2.st.settings.wallpaperMode_ ∈ declaredWallpaperModes ∧
    (loadFile ext path w).2.st.settings.desktopSortOrder_ ∈ [AscendingOrder, DescendingOrder] ∧
    (loadFile ext path w).2.st.settings.desktopSortColumn_ ∈
      [ColumnFileName, ColumnFileType, ColumnFileSize, ColumnFileMTime, ColumnFileOwner] ∧
    (loadFile ext path w).2.st.settings.viewMode_ ∈
      [IconMode, CompactMode, DetailedListMode, ThumbnailMode] ∧
    (loadFile ext path w).2.st.settings.sortOrder_ ∈ [AscendingOrder, DescendingOrder] ∧
    (loadFile ext path w).2.st.settings.sortColumn_ ∈
      [ColumnFileName, ColumnFileType, ColumnFileSize, ColumnFileMTime, ColumnFileOwner] ∧
    (loadFile ext path w).2.st.settings.sidePaneMode_ ∈ [ModePlaces, ModeDirTree, ModeNone] := by
  simp only [loadFile, loadFrom_settings]
  refine ⟨?_, wallpaperModeFromString_declared _, ?_, ?_, ?_, ?_, ?_, ?_⟩
  · cases bookmarkOpenMethodFromString _ <;> simp
  · cases sortOrderFromString _ <;> simp
  · cases sortColumnFromString _ <;> simp
  · cases viewModeFromString _ <;> simp
  · cases sortOrderFromString _ <;> simp
  · cases sortColumnFromString _ <;> simp
  · cases sidePaneModeFromString _ <;> simp

/-- C10: `load` and `save` return `true` for every profile name and every
state of the file system, whether the file is missing, empty, malformed or
cannot be written. -/
theorem load_save_return_true (ext : External QColor QFont) (env : Env) (profile : String)
    (w : World QColor QFont) :
    (load ext env profile w).1 = true ∧ (save ext env profile w).1 = true :=
  ⟨rfl, rfl⟩

end Store

/-- The config root at two environments: with the override `/cfg`, and
without an override. -/
theorem profileDir_config_root_witness :
    profileDir xdgEnv freshWorld.fs "default" false = "/cfg" ++ "/filer/" ++ "default" ∧
    profileDir homeEnv freshWorld.fs "default" false =
      homeEnv.homePath ++ "/.config" ++ "/filer/" ++ "default" :=
  ⟨(profileDir_config_root textExternal xdgEnv "default" freshWorld).1 "/cfg" rfl (by decide),
   (profileDir_config_root textExternal homeEnv "default" freshWorld).2.1 (Or.inl rfl)⟩

/-- Saving after a load that was served by a system directory: the file in the
system directory stays as it was and the user-specific file is written. -/
theorem save_target_witness :
    (save textExternal homeEnv "" (load textExternal homeEnv "default" systemOnlyWorld).2).2.fs.files
        "/etc/xdg/filer/default/settings.conf" =
      systemOnlyWorld.fs.files "/etc/xdg/filer/default/settings.conf" ∧
    (save textExternal homeEnv "" (load textExternal homeEnv "default" systemOnlyWorld).2).2.fs.files
        (userProfileDir homeEnv (if "" = "" then "default" else "") ++ "/settings.conf") =
      some (saveTo textExternal
        (systemOnlyWorld.fs.openSettings
          (userProfileDir homeEnv (if "" = "" then "default" else "") ++ "/settings.conf"))
        (load textExternal homeEnv "default" systemOnlyWorld).2.st.settings) :=
  ⟨(save_target textExternal homeEnv "default" "" systemOnlyWorld).2.2.2.1
      "/etc/xdg/filer/default/settings.conf" (by decide),
   (save_target textExternal homeEnv "default" "" systemOnlyWorld).2.2.2.2 (by decide)⟩

/-- The fallback search where only the system-wide profile directory exists:
with the fallback the system path is returned, without it the user path. -/
theorem profileDir_fallback_search_witness :
    profileDir homeEnv systemOnlyWorld.fs "default" true = "/etc/xdg/filer/default" ∧
    profileDir homeEnv systemOnlyWorld.fs "default" false =
      "/home/user/.config/filer/default" :=
  ⟨(profileDir_fallback_search homeEnv systemOnlyWorld.fs "default").2.trans (by decide),
   (profileDir_fallback_search homeEnv systemOnlyWorld.fs "default").1.trans (by decide)⟩

theorem wrapInt32_isInt32 (n : Int) : isInt32 (wrapInt32 n) := by
  unfold isInt32 wrapInt32
  omega

theorem toInt_string_isInt32 (s : String) : isInt32 (QVariant.string s).toInt := by
  simp only [QVariant.toInt]
  split
  · exact wrapInt32_isInt32 _
  · decide

theorem toInt_valueD_isInt32 (f : IniFile) (g k : String) (d : Int) (hd : isInt32 d) :
    isInt32 (f.valueD g k (.int d)).toInt := by
  unfold IniFile.valueD
  split
  · exact toInt_string_isInt32 _
  · exact hd

section Store
variable {QColor QFont : Type}

theorem loadFrom_themeName_ne (ext : External QColor QFont) (f : IniFile)
    (st : State QColor QFont) :
    (loadFrom ext f st).settings.fallbackIconThemeName_ ≠ "" := by
  simp only [loadFrom_settings]
  split
  · decide
  · assumption

theorem loadFrom_wallpaperMode_declared (ext : External QColor QFont) (f : IniFile)
    (st : State QColor QFont) :
    (loadFrom ext f st).settings.wallpaperMode_ ∈ declaredWallpaperModes := by
  simp only [loadFrom_settings]
  exact wallpaperModeFromString_declared _

theorem loadFrom_intsInRange (ext : External QColor QFont) (f : IniFile)
    (st : State QColor QFont) :
    (loadFrom ext f st).settings.intsInRange := by
  simp only [Settings.intsInRange, loadFrom_settings]
  refine ⟨?_, ?_, ?_, ?_, ?_, ?_, ?_, ?_, ?_, ?_, ?_⟩ <;>
    exact toInt_valueD_isInt32 _ _ _ _ (by decide)

/-- C11: loading normalises, so a loaded record is a fixed point of saving and
loading again. Let `r1` be the record after `loadFile` of any file; after
`saveFile` to a path that can be written and `loadFile` of the file just
written, every persisted enum, boolean, integer and string member, the
fallback icon theme name included, equals its value in `r1`, and so do the
members that are not persisted. Only the colours and the font are what Qt
parses from their printed form. -/
theorem load_save_load_fixed_point (ext : External QColor QFont) (path savePath : String)
    (w : World QColor QFont) (hw : w.fs.writable savePath = true) :
    (loadFile ext savePath
        (saveFile ext savePath (loadFile ext path w).2).2).2.st.settings =
      { (loadFile ext path w).2.st.settings with
        desktopBgColor_ :=
          ext.setNamedColor (ext.colorName (loadFile ext path w).2.st.settings.desktopBgColor_)
        desktopFgColor_ :=
          ext.setNamedColor (ext.colorName (loadFile ext path w).2.st.settings.desktopFgColor_)
        desktopShadowColor_ :=
          ext.setNamedColor
            (ext.colorName (loadFile ext path w).2.st.settings.desktopShadowColor_)
        desktopFont_ :=
          ext.fontFromString (loadFile ext path w).2.st.settings.desktopFont_
            (ext.fontToString (loadFile ext path w).2.st.settings.desktopFont_) } := by
  have hname := loadFrom_themeName_ne ext (w.fs.openSettings path) w.st
  have hmode := loadFrom_wallpaperMode_declared ext (w.fs.openSettings path) w.st
  have hint := loadFrom_intsInRange ext (w.fs.openSettings path) w.st
  have hload : (loadFile ext path w).2 =
      { w with st := loadFrom ext (w.fs.openSettings path) w.st } := rfl
  rw [hload]
  generalize loadFrom ext (w.fs.openSettings path) w.st = st1 at hname hmode hint ⊢
  simp only [loadFile, saveFile, openSettings_sync _ _ _ hw]
  exact loadFrom_saveTo_settings ext _ _ st1 hname hmode hint

end Store

/-- The fixed point at a file that holds only `Mode=thumbnail`: it is loaded
from the system-wide profile directory, saved to the user-specific path and
loaded again from there. -/
theorem load_save_load_fixed_point_witness :
    (loadFile textExternal "/home/user/.config/filer/default/settings.conf"
        (saveFile textExternal "/home/user/.config/filer/default/settings.conf"
          (loadFile textExternal "/etc/xdg/filer/default/settings.conf"
            systemOnlyWorld).2).2).2.st.settings =
      { (loadFile textExternal "/etc/xdg/filer/default/settings.conf"
          systemOnlyWorld).2.st.settings with
        desktopBgColor_ :=
          textExternal.setNamedColor
            (textExternal.colorName
              (loadFile textExternal "/etc/xdg/filer/default/settings.conf"
                systemOnlyWorld).2.st.settings.desktopBgColor_)
        desktopFgColor_ :=
          textExternal.setNamedColor
            (textExternal.colorName
              (loadFile textExternal "/etc/xdg/filer/default/settings.conf"
                systemOnlyWorld).2.st.settings.desktopFgColor_)
        desktopShadowColor_ :=
          textExternal.setNamedColor
            (textExternal.colorName
              (loadFile textExternal "/etc/xdg/filer/default/settings.conf"
                systemOnlyWorld).2.st.settings.desktopShadowColor_)
        desktopFont_ :=
          textExternal.fontFromString
            (loadFile textExternal "/etc/xdg/filer/default/settings.conf"
              systemOnlyWorld).2.st.settings.desktopFont_
            (textExternal.fontToString
              (loadFile textExternal "/etc/xdg/filer/default/settings.conf"
                systemOnlyWorld).2.st.settings.desktopFont_) } :=
  load_save_load_fixed_point textExternal "/etc/xdg/filer/default/settings.conf"
    "/home/user/.config/filer/default/settings.conf" systemOnlyWorld (by decide)

end Filer
